import Mathlib

/-!
# SR-IOV virtual-function manager (`driver/sriov.go`)

A shallow embedding of `driver/sriov.go`.

* Go `int` fields are `Int`; the only place where the 64-bit width matters is the
  value returned by `strconv.Atoi`, which is clamped to the `int64` range.
* A Go `error` is `Option String`: `none` is `nil`, `some msg` an error with that text.
* A slice of strings is a `List String` (a nil slice and an empty slice are both `[]`).
* A Go map is an association list with at most one entry per key.
* `*sriovNetwork` pointers are natural numbers into a heap; the package variable
  `networks` maps network ids to such pointers.
* The device primitives and `driver.getNetworkByGateway` are not defined in this file of
  the repository.  Their answers are given by an `Env`, each answer being a function of
  the list of all external calls made so far, and every call is appended to that list.
* A nil-pointer dereference (a run-time panic) is the result `none`.
-/

namespace Driver

/-! ## Constants and data -/

def SRIOV_ENABLED : String := "enabled"
def SRIOV_DISABLED : String := "disabled"
def sriovUnsupported : String := "unsupported"

/-- The endpoint record built by `CreateEndpoint` (`ptEndpoint` literal, lines 176-180).
Its declaration is outside `sriov.go`; the fields are the ones the literal sets. -/
structure ptEndpoint where
  devName : String
  vfName : String
  Address : String
deriving DecidableEq, Repr

/-- The `genericNetwork` a `sriovNetwork` points to.  Its declaration is outside
`sriov.go`; the fields are those `sriov.go` reads or writes (`IPv4Data` is only logged
and is left out).  The Go field `sriovNetwork.genNw` is a pointer; the embedding stores
the pointee, so every `sriovNetwork` has a `genericNetwork` of its own. -/
structure genericNetwork where
  id : String
  ndevName : String
  ndevEndpoints : List (String × ptEndpoint)
deriving DecidableEq, Repr

/-- Lines 18-25.  `genNw = none` is the nil pointer. -/
structure sriovNetwork where
  genNw : Option genericNetwork
  vfDevList : List String
  discoveredVFCount : Int
  maxVFCount : Int
  state : String
  vlan : Int
deriving DecidableEq, Repr

/-- The zero value `sriovNetwork{}`. -/
def sriovNetwork.zero : sriovNetwork :=
  { genNw := none, vfDevList := [], discoveredVFCount := 0, maxVFCount := 0,
    state := "", vlan := 0 }

/-- The type `network.EndpointInterface` of the Docker plugin helpers. -/
structure EndpointInterface where
  Address : String
  AddressIPv6 : String
  MacAddress : String
deriving DecidableEq, Repr

/-- The type `network.CreateEndpointRequest` (the `Options` field is never read). -/
structure CreateEndpointRequest where
  NetworkID : String
  EndpointID : String
  Interface : EndpointInterface
deriving DecidableEq, Repr

/-- The type `network.CreateEndpointResponse`. -/
structure CreateEndpointResponse where
  Interface : EndpointInterface
deriving DecidableEq, Repr

/-! ## External calls -/

/-- One call of a function that `sriov.go` uses but does not define. -/
inductive Call where
  | getNetworkByGateway (gateway : String)
  | netdevGetMaxVFCount (ndevName : String)
  | netdevGetEnabledVFCount (ndevName : String)
  | netdevEnableSRIOV (ndevName : String)
  | netdevDisableSRIOV (ndevName : String)
  | vfDevList (ndevName : String)
  | vfNetdevNameFromParent (parentNetdev vf : String)
  | vfPCIDevNameFromVfDir (parentNetdev vf : String)
  | SetVFDefaultMacAddress (parentNetdev vf vfNetdevName : String)
  | SetVFVlan (parentNetdev vf : String) (vlan : Int)
  | unbindVF (parentNetdev pciDevName : String)
  | bindVF (parentNetdev pciDevName : String)
deriving DecidableEq, Repr

/-- The surroundings of `sriov.go`: the two option keys (constants declared elsewhere in
the package) and the answers of the external functions whose result is used.  The first
argument of every answer is the list of calls made before it, so an answer may depend on
everything that happened earlier (for instance a name may change after a rebind). -/
structure Env where
  networkDevice : String
  sriovVlan : String
  getNetworkByGateway : List Call → String → Option String
  netdevGetMaxVFCount : List Call → String → Int × Option String
  netdevGetEnabledVFCount : List Call → String → Int × Option String
  netdevEnableSRIOV : List Call → String → Option String
  vfDevList : List Call → String → List String × Option String
  vfNetdevNameFromParent : List Call → String → String → String
  vfPCIDevNameFromVfDir : List Call → String → String → String

/-! ## Go maps and `strconv.Atoi` -/

/-- Reading `m[k]` from a Go map: the zero value when the key is absent. -/
def mapIndex (m : List (String × String)) (k : String) : String :=
  (m.lookup k).getD ""

/-- The assignment `m[k] = v`. -/
def mapInsert {β : Type} (m : List (String × β)) (k : String) (v : β) : List (String × β) :=
  (k, v) :: m.filter (fun e => e.1 ≠ k)

/-- The statement `delete(m, k)`. -/
def mapDelete {β : Type} (m : List (String × β)) (k : String) : List (String × β) :=
  m.filter (fun e => e.1 ≠ k)

def isDigit (c : Char) : Bool := decide (48 ≤ c.toNat ∧ c.toNat ≤ 57)

/-- The digit loop of `strconv.ParseUint` of the Go standard library for base 10 and 64
bits, started with the number read so far.  `none` is a syntax error, met at the first
character that is not a decimal digit; a number that does not fit 64 bits ends the loop
at once with the largest 64-bit number (the range error), whatever follows. -/
def parseUintLoop : List Char → Nat → Option Nat
  | [], n => some n
  | c :: cs, n =>
    if isDigit c = false then none
    else if n ≥ 1844674407370955162 then some 18446744073709551615
    else if n * 10 + (c.toNat - 48) > 18446744073709551615 then some 18446744073709551615
    else parseUintLoop cs (n * 10 + (c.toNat - 48))

/-- The integer returned by `strconv.Atoi` of the Go standard library (the error it
returns as well is discarded at line 52), which is `ParseInt(s, 10, 0)`: an optional sign
is taken off, the digits are read by `parseUintLoop`, a syntax error or an empty digit
string gives 0, and a number outside the `int64` range gives the nearest bound of that
range. -/
def Atoi (s : String) : Int :=
  let body : List Char :=
    match s.toList with
    | '-' :: cs => cs
    | '+' :: cs => cs
    | cs => cs
  let neg : Bool :=
    match s.toList with
    | '-' :: _ => true
    | _ => false
  if body = [] then 0
  else
    match parseUintLoop body 0 with
    | none => 0
    | some un =>
      if neg = false ∧ un ≥ 9223372036854775808 then 9223372036854775807
      else if neg = true ∧ un > 9223372036854775808 then -9223372036854775808
      else if neg = true then -(un : Int) else (un : Int)

/-! ## Results of the methods -/

/-- What a method leaves behind: the receiver after the call, the calls made so far,
and the returned value. -/
structure Out (α : Type) where
  nw : sriovNetwork
  calls : List Call
  ret : α

/-! ## Methods of `sriovNetwork` that touch only the receiver -/

/-- Lines 91-96.  The result of `netdevDisableSRIOV` is discarded by the source. -/
def disableSRIOV (nw : sriovNetwork) (calls : List Call) : Option (Out Unit) :=
  match nw.genNw with
  | none => none
  | some g =>
    some { nw := { nw with state := SRIOV_DISABLED, vfDevList := [], discoveredVFCount := 0 },
           calls := calls ++ [Call.netdevDisableSRIOV g.ndevName],
           ret := () }

/-- Lines 109-121: the second half of `DiscoverVFs`, entered when enabling was not
needed or has succeeded. -/
def DiscoverVFs.enumerate (env : Env) (nw : sriovNetwork) (calls : List Call) :
    Option (Out (Option String)) :=
  if nw.discoveredVFCount = 0 then
    match nw.genNw with
    | none => none
    | some g =>
      let listed := env.vfDevList calls g.ndevName
      let calls1 := calls ++ [Call.vfDevList g.ndevName]
      let nw1 := { nw with vfDevList := listed.1 }
      match listed.2 with
      | some e =>
        match disableSRIOV nw1 calls1 with
        | none => none
        | some o => some { nw := o.nw, calls := o.calls, ret := some e }
      | none =>
        some { nw := { nw1 with discoveredVFCount := (nw1.vfDevList.length : Int) },
               calls := calls1, ret := none }
  else some { nw := nw, calls := calls, ret := none }

/-- Lines 98-122. -/
def DiscoverVFs (env : Env) (nw : sriovNetwork) (calls : List Call) :
    Option (Out (Option String)) :=
  if nw.state = SRIOV_DISABLED then
    match nw.genNw with
    | none => none
    | some g =>
      match env.netdevEnableSRIOV calls g.ndevName with
      | some e =>
        some { nw := nw, calls := calls ++ [Call.netdevEnableSRIOV g.ndevName], ret := some e }
      | none =>
        DiscoverVFs.enumerate env { nw with state := SRIOV_ENABLED }
          (calls ++ [Call.netdevEnableSRIOV g.ndevName])
  else DiscoverVFs.enumerate env nw calls

/-- Lines 141-148: the calls of the binding sequence, made when the PCI name is not
empty.  None of them returns a value that the source uses. -/
def bindSequence (nw : sriovNetwork) (parentNetdev allocatedDev vfNetdevName pciDevName : String) :
    List Call :=
  if pciDevName ≠ "" then
    [Call.SetVFDefaultMacAddress parentNetdev allocatedDev vfNetdevName]
      ++ (if nw.vlan > 0 then [Call.SetVFVlan parentNetdev allocatedDev nw.vlan] else [])
      ++ [Call.unbindVF parentNetdev pciDevName, Call.bindVF parentNetdev pciDevName]
  else []

/-- Lines 124-161.  The returned pair is `(allocatedDev, vfNetdevName)`. -/
def AllocVF (env : Env) (nw : sriovNetwork) (calls : List Call) (parentNetdev : String) :
    Out (String × String) :=
  if nw.vfDevList.length = 0 then { nw := nw, calls := calls, ret := ("", "") }
  else
    let allocatedDev := nw.vfDevList.getD (nw.vfDevList.length - 1) ""
    let vfNetdevName := env.vfNetdevNameFromParent calls parentNetdev allocatedDev
    let calls1 := calls ++ [Call.vfNetdevNameFromParent parentNetdev allocatedDev]
    if vfNetdevName = "" then { nw := nw, calls := calls1, ret := ("", "") }
    else
      let pciDevName := env.vfPCIDevNameFromVfDir calls1 parentNetdev allocatedDev
      let calls2 := calls1 ++ [Call.vfPCIDevNameFromVfDir parentNetdev allocatedDev]
      let calls3 := calls2 ++ bindSequence nw parentNetdev allocatedDev vfNetdevName pciDevName
      let vfNetdevName2 := env.vfNetdevNameFromParent calls3 parentNetdev allocatedDev
      let calls4 := calls3 ++ [Call.vfNetdevNameFromParent parentNetdev allocatedDev]
      if vfNetdevName2 = "" then { nw := nw, calls := calls4, ret := ("", "") }
      else
        { nw := { nw with vfDevList := nw.vfDevList.take (nw.vfDevList.length - 1) },
          calls := calls4,
          ret := (allocatedDev, vfNetdevName2) }

/-- Lines 163-166. -/
def FreeVF (nw : sriovNetwork) (name : String) : sriovNetwork :=
  { nw with vfDevList := nw.vfDevList ++ [name] }

/-- Lines 168-194.  The returned pair is `(response, error)`; a nil response is `none`.
`AllocVF` never assigns `genNw`, so the `genericNetwork` read at line 172 is the one
written at line 181. -/
def CreateEndpoint (env : Env) (nw : sriovNetwork) (calls : List Call)
    (r : CreateEndpointRequest) :
    Option (Out (Option CreateEndpointResponse × Option String)) :=
  match nw.genNw with
  | none => none
  | some g =>
    let a := AllocVF env nw calls g.ndevName
    let vfName := a.ret.1
    let netdevName := a.ret.2
    if netdevName = "" then
      some { nw := a.nw, calls := a.calls,
             ret := (none, some ("All devices in use [ " ++ r.NetworkID ++ " ].")) }
    else
      let ndev : ptEndpoint :=
        { devName := netdevName, vfName := vfName, Address := r.Interface.Address }
      let endpointInterface : EndpointInterface :=
        { Address := if r.Interface.Address = "" then ndev.Address else "",
          AddressIPv6 := "", MacAddress := "" }
      some { nw := { a.nw with
                     genNw := some { g with
                       ndevEndpoints := mapInsert g.ndevEndpoints r.EndpointID ndev } },
             calls := a.calls,
             ret := (some { Interface := endpointInterface }, none) }

/-- Lines 196-200. -/
def DeleteEndpoint (nw : sriovNetwork) (endpoint : ptEndpoint) : sriovNetwork :=
  FreeVF nw endpoint.vfName

/-! ## The registry `networks` and the methods that use it -/

/-- The memory of the package: the `sriovNetwork` objects by address, the next unused
address, the package variable `networks`, and the external calls made so far. -/
structure State where
  heap : Nat → sriovNetwork
  next : Nat
  networks : List (String × Nat)
  calls : List Call

/-- The state in which nothing has happened yet: `networks` is nil. -/
def State.init : State :=
  { heap := fun _ => sriovNetwork.zero, next := 0, networks := [], calls := [] }

/-- The expression `&sriovNetwork{}`: a new zero-valued object at an unused address. -/
def State.new (s : State) : State × Nat :=
  ({ s with heap := Function.update s.heap s.next sriovNetwork.zero, next := s.next + 1 },
   s.next)

/-- Lines 29-36.  The loop visits every entry of `networks`; the order in which a Go map
is visited does not change whether some entry matches. -/
def checkVlanNwExist (s : State) (vlan : Int) : Bool :=
  s.networks.any (fun e => decide (vlan ≠ 0 ∧ (s.heap e.2).vlan = vlan))

/-- Lines 43 and 51-52: the variable `vlan` is zero unless the vlan option is present,
in which case it is the integer `strconv.Atoi` returns for it. -/
def parsedVlan (env : Env) (options : List (String × String)) : Int :=
  if mapIndex options env.sriovVlan ≠ "" then Atoi (mapIndex options env.sriovVlan) else 0

/-- Lines 45-74 of `CreateNetwork`: the gateway check, the validation of the vlan option,
the two capability queries and the choice of the initial state.  `nw` is the address of
the receiver and `gateway` is `ipv4Data.Gateway`.  `Except.error` is an early `return`
with that error; `Except.ok` is the memory with which line 76 is reached. -/
def CreateNetwork.prepare (env : Env) (s : State) (nw : Nat) (genNw : genericNetwork)
    (options : List (String × String)) (gateway : String) : Except (State × String) State :=
  let ndevName := mapIndex options env.networkDevice
  let s0 : State := { s with calls := s.calls ++ [Call.getNetworkByGateway gateway] }
  match env.getNetworkByGateway s.calls gateway with
  | some e => Except.error (s0, e)
  | none =>
    let vlan : Int := parsedVlan env options
    if mapIndex options env.sriovVlan ≠ "" ∧ vlan > 4095 then
      Except.error (s0, "vlan id out of range")
    else if mapIndex options env.sriovVlan ≠ "" ∧ checkVlanNwExist s0 vlan = true then
      Except.error (s0, "vlan already exist")
    else
      let maxq := env.netdevGetMaxVFCount s0.calls ndevName
      let s1 : State :=
        { s0 with
          heap := Function.update s0.heap nw
            { s0.heap nw with genNw := some genNw, maxVFCount := maxq.1 },
          calls := s0.calls ++ [Call.netdevGetMaxVFCount ndevName] }
      match maxq.2 with
      | some e => Except.error (s1, e)
      | none =>
        let curq := env.netdevGetEnabledVFCount s1.calls ndevName
        let s2 : State :=
          { s1 with calls := s1.calls ++ [Call.netdevGetEnabledVFCount ndevName] }
        match curq.2 with
        | some e => Except.error (s2, e)
        | none =>
          Except.ok
            { s2 with
              heap := Function.update s2.heap nw
                { s2.heap nw with
                  state := if curq.1 ≠ 0 then SRIOV_ENABLED else SRIOV_DISABLED } }

/-- Lines 38-89.  The result is the new memory and the returned error; `none` would be a
panic. -/
def CreateNetwork (env : Env) (s : State) (nw : Nat) (genNw : genericNetwork)
    (nid : String) (options : List (String × String)) (gateway : String) :
    Option (State × Option String) :=
  match CreateNetwork.prepare env s nw genNw options gateway with
  | Except.error (s1, e) => some (s1, some e)
  | Except.ok s2 =>
    match DiscoverVFs env (s2.heap nw) s2.calls with
    | none => none
    | some d =>
      let s3 : State := { s2 with heap := Function.update s2.heap nw d.nw, calls := d.calls }
      match d.ret with
      | some e => some (s3, some e)
      | none =>
        let s4 : State :=
          { s3 with
            heap := Function.update s3.heap nw
              { s3.heap nw with vlan := parsedVlan env options } }
        some ({ s4 with
                networks :=
                  mapInsert (if s4.networks.length = 0 then [] else s4.networks) nid nw },
              none)

/-- Lines 202-206. -/
def DeleteNetwork (s : State) (nw : Nat) : Option State :=
  match disableSRIOV (s.heap nw) s.calls with
  | none => none
  | some o =>
    match o.nw.genNw with
    | none => none
    | some g =>
      some { s with heap := Function.update s.heap nw o.nw,
                    networks := mapDelete s.networks g.id,
                    calls := o.calls }

/-! ## Sequences of calls -/

/-- A call made by the driver layer: `CreateNetwork` on a newly made `sriovNetwork`, or
`DeleteNetwork` on the object at some address. -/
inductive NetOp where
  | create (genNw : genericNetwork) (nid : String) (options : List (String × String))
      (gateway : String)
  | delete (nw : Nat)

/-- One call; `none` when it panics. -/
def NetOp.step (env : Env) (s : State) : NetOp → Option State
  | NetOp.create genNw nid options gateway =>
    (CreateNetwork env s.new.1 s.new.2 genNw nid options gateway).map Prod.fst
  | NetOp.delete nw => DeleteNetwork s nw

/-- The calls of the list, one after the other. -/
def NetOp.run (env : Env) (s : State) : List NetOp → Option State
  | [] => some s
  | op :: ops => (NetOp.step env s op).bind (fun s1 => NetOp.run env s1 ops)

/-- No two entries of `networks` with different ids hold the same non-zero vlan. -/
def VlanUnique (s : State) : Prop :=
  ∀ e1 ∈ s.networks, ∀ e2 ∈ s.networks, e1.1 ≠ e2.1 →
    (s.heap e1.2).vlan ≠ 0 → (s.heap e1.2).vlan ≠ (s.heap e2.2).vlan

/-- Every registered address has been handed out by `State.new`. -/
def RegisteredBelowNext (s : State) : Prop :=
  ∀ e ∈ s.networks, e.2 < s.next

/-- What every reachable memory satisfies. -/
def RegistryInv (s : State) : Prop := VlanUnique s ∧ RegisteredBelowNext s

/-! ## Concrete surroundings used to run the code on examples -/

/-- A device on which everything succeeds: capacity 4, no VF enabled yet, four VFs
listed, and every name resolves. -/
def envOK : Env :=
  { networkDevice := "netdevice"
    sriovVlan := "vlan"
    getNetworkByGateway := fun _ _ => none
    netdevGetMaxVFCount := fun _ _ => (4, none)
    netdevGetEnabledVFCount := fun _ _ => (0, none)
    netdevEnableSRIOV := fun _ _ => none
    vfDevList := fun _ _ => (["vf0", "vf1", "vf2", "vf3"], none)
    vfNetdevNameFromParent := fun _ _ vf => "eth-" ++ vf
    vfPCIDevNameFromVfDir := fun _ _ vf => "pci-" ++ vf }

def genA : genericNetwork := { id := "netA", ndevName := "ens1", ndevEndpoints := [] }

def genB : genericNetwork := { id := "netB", ndevName := "ens2", ndevEndpoints := [] }

def genC : genericNetwork := { id := "netC", ndevName := "ens3", ndevEndpoints := [] }

/-- Two networks with vlans 10 and 20 are created, a third one asking for vlan 10 again
is refused, the first is deleted, and the third is then created with vlan 10. -/
def demoOps : List NetOp :=
  [ NetOp.create genA "netA" [("netdevice", "ens1"), ("vlan", "10")] "10.0.0.1",
    NetOp.create genB "netB" [("netdevice", "ens2"), ("vlan", "20")] "10.0.1.1",
    NetOp.create genC "netC" [("netdevice", "ens3"), ("vlan", "10")] "10.0.2.1",
    NetOp.delete 0,
    NetOp.create genC "netC" [("netdevice", "ens3"), ("vlan", "10")] "10.0.2.1" ]

/-- The memory after `demoOps`. -/
def demoState : State := (NetOp.run envOK State.init demoOps).getD State.init

/-! ## The answers `CreateNetwork` receives

`CreateNetwork` puts its questions in a fixed order, so the list of earlier calls at each
question is known.  The definitions below name the answer to each question; the theorems
use them to say which calls succeed and which fail. -/

/-- Nothing makes lines 46-59 return early: the gateway check reports no error, the vlan
is not above 4095 and no registered network holds it. -/
def PassesValidation (env : Env) (s : State) (options : List (String × String))
    (gateway : String) : Prop :=
  env.getNetworkByGateway s.calls gateway = none ∧
  parsedVlan env options ≤ 4095 ∧
  checkVlanNwExist s (parsedVlan env options) = false

instance (env : Env) (s : State) (options : List (String × String)) (gateway : String) :
    Decidable (PassesValidation env s options gateway) := by
  unfold PassesValidation
  infer_instance

/-- The answer to `netdevGetMaxVFCount` at line 62. -/
def maxAnswer (env : Env) (s : State) (options : List (String × String))
    (gateway : String) : Int × Option String :=
  env.netdevGetMaxVFCount (s.calls ++ [Call.getNetworkByGateway gateway])
    (mapIndex options env.networkDevice)

/-- The answer to `netdevGetEnabledVFCount` at line 66. -/
def curAnswer (env : Env) (s : State) (options : List (String × String))
    (gateway : String) : Int × Option String :=
  env.netdevGetEnabledVFCount
    (s.calls ++ [Call.getNetworkByGateway gateway,
      Call.netdevGetMaxVFCount (mapIndex options env.networkDevice)])
    (mapIndex options env.networkDevice)

/-- The calls made when `DiscoverVFs` is entered at line 76. -/
def callsAtDiscover (env : Env) (s : State) (options : List (String × String))
    (gateway : String) : List Call :=
  s.calls ++ [Call.getNetworkByGateway gateway,
    Call.netdevGetMaxVFCount (mapIndex options env.networkDevice),
    Call.netdevGetEnabledVFCount (mapIndex options env.networkDevice)]

/-- The answer to `netdevEnableSRIOV` at line 102, asked only when no VF was enabled. -/
def enableAnswer (env : Env) (s : State) (genNw : genericNetwork)
    (options : List (String × String)) (gateway : String) : Option String :=
  env.netdevEnableSRIOV (callsAtDiscover env s options gateway) genNw.ndevName

/-- The calls made when the VF names are listed at line 111. -/
def callsAtEnumerate (env : Env) (s : State) (genNw : genericNetwork)
    (options : List (String × String)) (gateway : String) : List Call :=
  callsAtDiscover env s options gateway ++
    (if (curAnswer env s options gateway).1 ≠ 0 then []
     else [Call.netdevEnableSRIOV genNw.ndevName])

/-- The answer to `vfDevList` at line 111. -/
def listAnswer (env : Env) (s : State) (genNw : genericNetwork)
    (options : List (String × String)) (gateway : String) : List String × Option String :=
  env.vfDevList (callsAtEnumerate env s genNw options gateway) genNw.ndevName

/-- Like `envOK`, but listing the VF names fails. -/
def envListFails : Env :=
  { envOK with vfDevList := fun _ _ => ([], some "cannot list VFs") }

/-- Like `envOK`, but some VFs are enabled already when the network is created. -/
def envAlreadyEnabled : Env :=
  { envOK with netdevGetEnabledVFCount := fun _ _ => (4, none) }

/-- The memory after network `netA` with vlan 10 has been created on `envOK`. -/
def stateA : State :=
  ((CreateNetwork envOK State.init.new.1 State.init.new.2 genA "netA"
      [("netdevice", "ens1"), ("vlan", "10")] "10.0.0.1").map Prod.fst).getD State.init

/-! ## The answers `AllocVF` receives -/

/-- The calls made when `AllocVF` resolves the name of `allocatedDev` for the second time
(line 151): the first resolution, the PCI name lookup and the binding sequence. -/
def callsAtSecondResolve (env : Env) (nw : sriovNetwork) (calls : List Call)
    (parentNetdev allocatedDev : String) : List Call :=
  calls ++ [Call.vfNetdevNameFromParent parentNetdev allocatedDev] ++
    [Call.vfPCIDevNameFromVfDir parentNetdev allocatedDev] ++
    bindSequence nw parentNetdev allocatedDev
      (env.vfNetdevNameFromParent calls parentNetdev allocatedDev)
      (env.vfPCIDevNameFromVfDir
        (calls ++ [Call.vfNetdevNameFromParent parentNetdev allocatedDev])
        parentNetdev allocatedDev)

/-- The name found by the first resolution (line 135). -/
def firstName (env : Env) (calls : List Call) (parentNetdev allocatedDev : String) : String :=
  env.vfNetdevNameFromParent calls parentNetdev allocatedDev

/-- The name found by the second resolution (line 151), after the rebind. -/
def secondName (env : Env) (nw : sriovNetwork) (calls : List Call)
    (parentNetdev allocatedDev : String) : String :=
  env.vfNetdevNameFromParent (callsAtSecondResolve env nw calls parentNetdev allocatedDev)
    parentNetdev allocatedDev

/-- A device on which no VF name resolves. -/
def envNoName : Env :=
  { envOK with vfNetdevNameFromParent := fun _ _ _ => "" }

/-- A device on which a VF name resolves until the VF has been rebound. -/
def envLostAfterRebind : Env :=
  { envOK with
    vfNetdevNameFromParent := fun calls _ vf =>
      if calls.any (fun c => match c with | Call.bindVF _ _ => true | _ => false) then ""
      else "eth-" ++ vf }

/-- The network of `stateA`: ENABLED, pool `vf0 .. vf3`, vlan 10. -/
def nwA : sriovNetwork := stateA.heap 0

/-- A network like `nwA` whose pool has run empty. -/
def nwEmpty : sriovNetwork := { nwA with vfDevList := [] }

/-- A network like `nwA` with the single VF `vf0` in its pool. -/
def nwOne : sriovNetwork := { nwA with vfDevList := ["vf0"] }

def reqA : CreateEndpointRequest :=
  { NetworkID := "netA", EndpointID := "ep1",
    Interface := { Address := "10.0.0.5/24", AddressIPv6 := "", MacAddress := "" } }

/-! ## Sequences of endpoint calls on one network -/

/-- One network together with the bindings that `CreateEndpoint` has produced on it and
that have not been handed to `DeleteEndpoint` yet.  The list `bindings` is bookkeeping of
the caller; the source keeps no such list. -/
structure EpState where
  nw : sriovNetwork
  calls : List Call
  bindings : List ptEndpoint

/-- A call of `CreateEndpoint` with a request, or a call of `DeleteEndpoint` on the
binding at a position of `EpState.bindings`. -/
inductive EpOp where
  | create (r : CreateEndpointRequest)
  | delete (i : Nat)

/-- The binding that line 181 has stored for an endpoint id. -/
def recordedBinding (nw : sriovNetwork) (endpointID : String) : Option ptEndpoint :=
  match nw.genNw with
  | none => none
  | some g => g.ndevEndpoints.lookup endpointID

/-- One endpoint call; `none` when it panics.  A successful `CreateEndpoint` adds the
binding it recorded to `bindings`, a failed one adds nothing.  `DeleteEndpoint` is called
on a binding of the list, which leaves the list, so that no binding is deleted twice; a
position beyond the list names no binding and nothing is called. -/
def EpOp.step (env : Env) (st : EpState) : EpOp → Option EpState
  | EpOp.create r =>
    match CreateEndpoint env st.nw st.calls r with
    | none => none
    | some o =>
      match o.ret.2 with
      | some _ => some { nw := o.nw, calls := o.calls, bindings := st.bindings }
      | none =>
        some { nw := o.nw, calls := o.calls,
               bindings := st.bindings ++ (recordedBinding o.nw r.EndpointID).toList }
  | EpOp.delete i =>
    match st.bindings.get? i with
    | none => some st
    | some b =>
      some { nw := DeleteEndpoint st.nw b, calls := st.calls,
             bindings := st.bindings.eraseIdx i }

/-- The endpoint calls of the list, one after the other. -/
def EpOp.run (env : Env) (st : EpState) : List EpOp → Option EpState
  | [] => some st
  | op :: ops => (EpOp.step env st op).bind (fun st1 => EpOp.run env st1 ops)

/-- Conservation of VFs: every discovered VF is in the pool or bound to an endpoint. -/
def Conserved (st : EpState) : Prop :=
  st.nw.discoveredVFCount = (st.nw.vfDevList.length : Int) + (st.bindings.length : Int)

instance (st : EpState) : Decidable (Conserved st) := by
  unfold Conserved
  infer_instance

/-- A network on which nothing has been discovered yet, as line 76 finds it. -/
def nwFresh : sriovNetwork :=
  { sriovNetwork.zero with genNw := some genA, maxVFCount := 4, state := SRIOV_DISABLED }

/-- Two endpoints are created, the first one is deleted, three more are created, a sixth
creation finds the pool empty and fails, and a binding is deleted. -/
def demoEpOps : List EpOp :=
  [ EpOp.create reqA, EpOp.create { reqA with EndpointID := "ep2" }, EpOp.delete 0,
    EpOp.create { reqA with EndpointID := "ep3" }, EpOp.create { reqA with EndpointID := "ep4" },
    EpOp.create { reqA with EndpointID := "ep5" }, EpOp.create { reqA with EndpointID := "ep6" },
    EpOp.delete 2 ]

/-! ## Scenario C -/

/-- Three `CreateEndpoint` calls with different endpoint ids. -/
def threeCreates : List EpOp :=
  [ EpOp.create reqA, EpOp.create { reqA with EndpointID := "ep2" },
    EpOp.create { reqA with EndpointID := "ep3" } ]

/-! ## Deleting a network -/

/-- A `genericNetwork` whose `id` is not the id under which it is going to be
registered. -/
def genX : genericNetwork := { id := "netX", ndevName := "ens1", ndevEndpoints := [] }

/-- The memory after a network with `genX` has been created under the id `netA`. -/
def stateX : State :=
  ((CreateNetwork envOK State.init.new.1 State.init.new.2 genX "netA"
      [("netdevice", "ens1"), ("vlan", "10")] "10.0.0.1").map Prod.fst).getD State.init

/-! ## Further concrete surroundings -/

/-- Like `envOK`, but enabling SR-IOV fails. -/
def envEnableFails : Env :=
  { envOK with netdevEnableSRIOV := fun _ _ => some "cannot enable SR-IOV" }

/-- Like `envOK`, but the capacity query fails. -/
def envMaxFails : Env :=
  { envOK with netdevGetMaxVFCount := fun _ _ => (0, some "SR-IOV unsupported") }

/-- Like `envOK`, but the query of the enabled VFs fails. -/
def envCurFails : Env :=
  { envOK with netdevGetEnabledVFCount := fun _ _ => (0, some "cannot read VF count") }

/-- Like `envOK`, but the device lists no VF. -/
def envNoVFs : Env :=
  { envOK with vfDevList := fun _ _ => ([], none) }

/-- Like `envOK`, but no PCI device name is found for a VF. -/
def envNoPci : Env :=
  { envOK with vfPCIDevNameFromVfDir := fun _ _ _ => "" }

/-- A network that has discovered four VFs and whose state field says DISABLED. -/
def nwDisabledDiscovered : sriovNetwork := { nwA with state := SRIOV_DISABLED }

/-! ## Sequences of calls on any receivers -/

/-- The memory of the package together with one piece of bookkeeping that the source does
not keep: `live`, the addresses of the networks whose latest `CreateNetwork` or
`DeleteNetwork` call was a `CreateNetwork` that returned no error.  In `State.init` every
address holds a zero-valued `sriovNetwork`, so a call on an address that no call has used
before is a call on a new object. -/
structure ApiWorld where
  s : State
  live : List Nat

/-- Nothing has happened yet. -/
def ApiWorld.init : ApiWorld :=
  { s := State.init, live := [] }

/-- A call of one of the exported methods on the network at any address, new or not, with
any arguments: `DeleteEndpoint` takes any binding and `FreeVF` any name. -/
inductive ApiOp where
  | createNetwork (nw : Nat) (genNw : genericNetwork) (nid : String)
      (options : List (String × String)) (gateway : String)
  | deleteNetwork (nw : Nat)
  | createEndpoint (nw : Nat) (r : CreateEndpointRequest)
  | deleteEndpoint (nw : Nat) (endpoint : ptEndpoint)
  | freeVF (nw : Nat) (name : String)

/-- One call; `none` when it panics.  The methods work on the object at the address and
the result is written back to that address. -/
def ApiOp.step (env : Env) (w : ApiWorld) : ApiOp → Option ApiWorld
  | ApiOp.createNetwork nw genNw nid options gateway =>
    match CreateNetwork env w.s nw genNw nid options gateway with
    | none => none
    | some (s1, none) => some { s := s1, live := nw :: w.live }
    | some (s1, some _) => some { s := s1, live := w.live.filter (fun p => p ≠ nw) }
  | ApiOp.deleteNetwork nw =>
    match DeleteNetwork w.s nw with
    | none => none
    | some s1 => some { s := s1, live := w.live.filter (fun p => p ≠ nw) }
  | ApiOp.createEndpoint nw r =>
    match CreateEndpoint env (w.s.heap nw) w.s.calls r with
    | none => none
    | some o =>
      some { s := { w.s with heap := Function.update w.s.heap nw o.nw, calls := o.calls },
             live := w.live }
  | ApiOp.deleteEndpoint nw endpoint =>
    some { s := { w.s with
                  heap := Function.update w.s.heap nw (DeleteEndpoint (w.s.heap nw) endpoint) },
           live := w.live }
  | ApiOp.freeVF nw name =>
    some { s := { w.s with heap := Function.update w.s.heap nw (FreeVF (w.s.heap nw) name) },
           live := w.live }

/-- The calls of the list, one after the other. -/
def ApiOp.run (env : Env) (w : ApiWorld) : List ApiOp → Option ApiWorld
  | [] => some w
  | op :: ops => (ApiOp.step env w op).bind (fun w1 => ApiOp.run env w1 ops)

/-- Every live network is ENABLED. -/
def LiveEnabled (w : ApiWorld) : Prop :=
  ∀ p ∈ w.live, (w.s.heap p).state = SRIOV_ENABLED

/-! ## Sequences of calls with new receivers and own bindings -/

/-- The memory of the package together with `bound`, for every address the bindings that
`CreateEndpoint` has produced on that network and that have not been handed to
`DeleteEndpoint` yet.  The source keeps no such list. -/
structure World where
  s : State
  bound : Nat → List ptEndpoint

/-- Nothing has happened yet. -/
def World.init : World :=
  { s := State.init, bound := fun _ => [] }

/-- A call made under the discipline of the driver layer: `CreateNetwork` on a newly made
`sriovNetwork`, `DeleteNetwork` and `CreateEndpoint` on the network at an address, and
`DeleteEndpoint` on the outstanding binding at a position of `bound` of that network. -/
inductive DrvOp where
  | createNetwork (genNw : genericNetwork) (nid : String) (options : List (String × String))
      (gateway : String)
  | deleteNetwork (nw : Nat)
  | createEndpoint (nw : Nat) (r : CreateEndpointRequest)
  | deleteEndpoint (nw : Nat) (i : Nat)

/-- One call; `none` when it panics.  A successful `CreateEndpoint` adds the binding it
recorded to `bound`; `DeleteEndpoint` is called on a binding of `bound`, which leaves the
list, so that no binding is deleted twice or on another network; a position beyond the
list names no binding and nothing is called. -/
def DrvOp.step (env : Env) (w : World) : DrvOp → Option World
  | DrvOp.createNetwork genNw nid options gateway =>
    match CreateNetwork env w.s.new.1 w.s.new.2 genNw nid options gateway with
    | none => none
    | some (s1, _) => some { s := s1, bound := w.bound }
  | DrvOp.deleteNetwork nw =>
    match DeleteNetwork w.s nw with
    | none => none
    | some s1 => some { s := s1, bound := w.bound }
  | DrvOp.createEndpoint nw r =>
    match CreateEndpoint env (w.s.heap nw) w.s.calls r with
    | none => none
    | some o =>
      some { s := { w.s with heap := Function.update w.s.heap nw o.nw, calls := o.calls },
             bound :=
               match o.ret.2 with
               | some _ => w.bound
               | none =>
                 Function.update w.bound nw
                   (w.bound nw ++ (recordedBinding o.nw r.EndpointID).toList) }
  | DrvOp.deleteEndpoint nw i =>
    match (w.bound nw).get? i with
    | none => some w
    | some b =>
      some { s := { w.s with
                    heap := Function.update w.s.heap nw (DeleteEndpoint (w.s.heap nw) b) },
             bound := Function.update w.bound nw ((w.bound nw).eraseIdx i) }

/-- The calls of the list, one after the other. -/
def DrvOp.run (env : Env) (w : World) : List DrvOp → Option World
  | [] => some w
  | op :: ops => (DrvOp.step env w op).bind (fun w1 => DrvOp.run env w1 ops)

/-- Every name in a pool or in an outstanding binding of a network is one of the names
that `names` gives for the device of that network, and no object beyond the handed out
addresses has a `genNw`. -/
def PoolsFromDevice (names : String → List String) (w : World) : Prop :=
  (∀ p x, (x ∈ (w.s.heap p).vfDevList ∨ x ∈ (w.bound p).map ptEndpoint.vfName) →
    ∃ g, (w.s.heap p).genNw = some g ∧ x ∈ names g.ndevName) ∧
  (∀ p, w.s.next ≤ p → (w.s.heap p).genNw = none)

/-- A device that reports as many enabled VFs as its capacity once SR-IOV has been
enabled on it, and none before. -/
def envStateful : Env :=
  { envOK with
    netdevGetEnabledVFCount := fun calls d =>
      (if calls.contains (Call.netdevEnableSRIOV d) then 4 else 0, none) }

/-- A device that reports no enabled VF and on which SR-IOV can be enabled once: a second
enable call fails. -/
def envEnableOnce : Env :=
  { envOK with
    netdevEnableSRIOV := fun calls d =>
      if calls.contains (Call.netdevEnableSRIOV d) then some "cannot enable SR-IOV"
      else none }

/-- A second network on the device `ens1`. -/
def genA2 : genericNetwork := { id := "netB", ndevName := "ens1", ndevEndpoints := [] }

/-- A `genericNetwork` with the id `netA` on the device `ens2`. -/
def genA3 : genericNetwork := { id := "netA", ndevName := "ens2", ndevEndpoints := [] }

/-- The binding that `CreateEndpoint` records for `reqA` on the network of Scenario A. -/
def bindingA : ptEndpoint :=
  { devName := "eth-vf3", vfName := "vf3", Address := "10.0.0.5/24" }

/-- Network `netA` is created, an endpoint is created on it, the network is deleted and
the endpoint is deleted afterwards. -/
def opsFreeAfterDelete : List ApiOp :=
  [ ApiOp.createNetwork 0 genA "netA" [("netdevice", "ens1"), ("vlan", "10")] "10.0.0.1",
    ApiOp.createEndpoint 0 reqA,
    ApiOp.deleteNetwork 0,
    ApiOp.deleteEndpoint 0 bindingA ]

/-- Network `netA` is created, and `CreateNetwork` is called a second time on the same
object. -/
def opsCreateTwice : List ApiOp :=
  [ ApiOp.createNetwork 0 genA "netA" [("netdevice", "ens1"), ("vlan", "10")] "10.0.0.1",
    ApiOp.createNetwork 0 genA "netA" [("netdevice", "ens1"), ("vlan", "20")] "10.0.0.1" ]

/-- Two networks with different ids and vlans are created on the same device `ens1`. -/
def opsSameDevice : List DrvOp :=
  [ DrvOp.createNetwork genA "netA" [("netdevice", "ens1"), ("vlan", "10")] "10.0.0.1",
    DrvOp.createNetwork genA2 "netB" [("netdevice", "ens1"), ("vlan", "20")] "10.0.1.1" ]

/-- Networks are created on the devices `ens1` and `ens2`, an endpoint is created on each
and the first endpoint is deleted. -/
def opsTwoDevices : List DrvOp :=
  [ DrvOp.createNetwork genA "netA" [("netdevice", "ens1"), ("vlan", "10")] "10.0.0.1",
    DrvOp.createNetwork genB "netB" [("netdevice", "ens2"), ("vlan", "20")] "10.0.1.1",
    DrvOp.createEndpoint 0 reqA,
    DrvOp.createEndpoint 1 { reqA with NetworkID := "netB" },
    DrvOp.deleteEndpoint 0 0 ]

/-- Network `netA` is created on `ens1`; `CreateNetwork` is called again on the same
object, now with a `genericNetwork` on `ens2`; then a network is created on `ens1`. -/
def opsRecreateOnOtherDevice : List ApiOp :=
  [ ApiOp.createNetwork 0 genA "netA" [("netdevice", "ens1"), ("vlan", "10")] "10.0.0.1",
    ApiOp.createNetwork 0 genA3 "netA" [("netdevice", "ens2"), ("vlan", "30")] "10.0.0.1",
    ApiOp.createNetwork 1 genA2 "netB" [("netdevice", "ens1"), ("vlan", "20")] "10.0.1.1" ]

/-- The binding that `CreateEndpoint` records for `reqA` on a network on `ens1` of
`envPerDevice`. -/
def bindingP : ptEndpoint :=
  { devName := "eth-ens1-vf1", vfName := "ens1-vf1", Address := "10.0.0.5/24" }

/-- Networks are created on `ens1` and `ens2`, an endpoint is created on the first, and
its binding is handed to `DeleteEndpoint` of the second network and then of the first. -/
def opsForeignBinding : List ApiOp :=
  [ ApiOp.createNetwork 0 genA "netA" [("netdevice", "ens1"), ("vlan", "10")] "10.0.0.1",
    ApiOp.createNetwork 1 genB "netB" [("netdevice", "ens2"), ("vlan", "20")] "10.0.1.1",
    ApiOp.createEndpoint 0 reqA,
    ApiOp.deleteEndpoint 1 bindingP,
    ApiOp.deleteEndpoint 0 bindingP ]

/-- The VF names of each physical device: two on `ens1`, two others on `ens2`. -/
def namesTable (d : String) : List String :=
  if d = "ens1" then ["ens1-vf0", "ens1-vf1"]
  else if d = "ens2" then ["ens2-vf0", "ens2-vf1"]
  else []

/-- A device layer on which the listing of the VF names is the function `namesTable` of
the physical device, so that different devices have no VF name in common. -/
def envPerDevice : Env :=
  { envStateful with vfDevList := fun _ d => (namesTable d, none) }

/-- The memory after network `netA` and an endpoint on it have been created. -/
def worldLive : ApiWorld :=
  (ApiOp.run envOK ApiWorld.init (opsFreeAfterDelete.take 2)).getD ApiWorld.init

/-- The memory after `opsTwoDevices` on `envPerDevice`. -/
def worldTwo : World :=
  (DrvOp.run envPerDevice World.init opsTwoDevices).getD World.init

/-- The result of the first `DiscoverVFs` on `nwFresh`: ENABLED, four VFs discovered. -/
def discoveredOnce : Out (Option String) :=
  (DiscoverVFs envOK nwFresh []).getD { nw := nwFresh, calls := [], ret := none }

/-! # Theorems -/

/-! ## Basic facts -/

theorem mem_mapDelete {β : Type} (m : List (String × β)) (k : String) (e : String × β) :
    e ∈ mapDelete m k ↔ e ∈ m ∧ e.1 ≠ k := by
  simp [mapDelete]

theorem mem_mapInsert {β : Type} (m : List (String × β)) (k : String) (v : β)
    (e : String × β) :
    e ∈ mapInsert m k v ↔ e = (k, v) ∨ (e ∈ m ∧ e.1 ≠ k) := by
  simp [mapInsert]

theorem disableSRIOV_vlan {nw : sriovNetwork} {calls : List Call} {o : Out Unit}
    (h : disableSRIOV nw calls = some o) : o.nw.vlan = nw.vlan := by
  unfold disableSRIOV at h
  cases hg : nw.genNw with
  | none => simp [hg] at h
  | some g =>
    simp [hg] at h
    subst h
    rfl

theorem enumerate_vlan {env : Env} {nw : sriovNetwork} {calls : List Call}
    {d : Out (Option String)} (h : DiscoverVFs.enumerate env nw calls = some d) :
    d.nw.vlan = nw.vlan := by
  unfold DiscoverVFs.enumerate at h
  split at h
  · cases hg : nw.genNw with
    | none => simp [hg] at h
    | some g =>
      simp only [hg] at h
      cases hl : (env.vfDevList calls g.ndevName).2 with
      | none =>
        simp [hl] at h
        subst h
        rfl
      | some e =>
        simp only [hl] at h
        simp [disableSRIOV, hg] at h
        subst h
        rfl
  · simp at h
    subst h
    rfl

theorem DiscoverVFs_vlan {env : Env} {nw : sriovNetwork} {calls : List Call}
    {d : Out (Option String)} (h : DiscoverVFs env nw calls = some d) :
    d.nw.vlan = nw.vlan := by
  unfold DiscoverVFs at h
  split at h
  · cases hg : nw.genNw with
    | none => simp [hg] at h
    | some g =>
      simp only [hg] at h
      cases he : env.netdevEnableSRIOV calls g.ndevName with
      | none =>
        simp only [he] at h
        have hv := enumerate_vlan h
        simpa using hv
      | some e =>
        simp [he] at h
        subst h
        rfl
  · exact enumerate_vlan h

theorem checkVlanNwExist_calls (s : State) (calls : List Call) (vlan : Int) :
    checkVlanNwExist { s with calls := calls } vlan = checkVlanNwExist s vlan := rfl

theorem checkVlanNwExist_eq_false {s : State} {vlan : Int}
    (h : checkVlanNwExist s vlan = false) (hv : vlan ≠ 0) :
    ∀ e ∈ s.networks, (s.heap e.2).vlan ≠ vlan := by
  intro e he
  simp only [checkVlanNwExist, List.any_eq_false] at h
  have h1 := h e he
  simpa [hv] using h1

/-- What `CreateNetwork.prepare` leaves alone, and what passing it means. -/
theorem prepare_frame (env : Env) (s : State) (nw : Nat) (genNw : genericNetwork)
    (options : List (String × String)) (gateway : String) :
    (∀ s1 e, CreateNetwork.prepare env s nw genNw options gateway = Except.error (s1, e) →
      (∀ q, q ≠ nw → s1.heap q = s.heap q) ∧ s1.next = s.next ∧
      s1.networks = s.networks ∧ (s1.heap nw).vlan = (s.heap nw).vlan) ∧
    (∀ s2, CreateNetwork.prepare env s nw genNw options gateway = Except.ok s2 →
      (∀ q, q ≠ nw → s2.heap q = s.heap q) ∧ s2.next = s.next ∧
      s2.networks = s.networks ∧ (s2.heap nw).vlan = (s.heap nw).vlan ∧
      (s2.heap nw).genNw = some genNw ∧
      parsedVlan env options ≤ 4095 ∧
      (parsedVlan env options ≠ 0 → checkVlanNwExist s (parsedVlan env options) = false)) := by
  unfold CreateNetwork.prepare
  simp only
  cases hgw : env.getNetworkByGateway s.calls gateway with
  | some e =>
    simp only [Except.error.injEq, Prod.mk.injEq, reduceCtorEq, false_imp_iff, implies_true,
      and_true]
    rintro s1 e1 ⟨rfl, -⟩
    simp
  | none =>
    simp only
    by_cases hrange : mapIndex options env.sriovVlan ≠ "" ∧ parsedVlan env options > 4095
    · rw [if_pos hrange]
      simp only [Except.error.injEq, Prod.mk.injEq, reduceCtorEq, false_imp_iff, implies_true,
        and_true]
      rintro s1 e1 ⟨rfl, -⟩
      simp
    · rw [if_neg hrange]
      have hle : parsedVlan env options ≤ 4095 := by
        by_cases ho : mapIndex options env.sriovVlan = ""
        · simp [parsedVlan, ho]
        · exact not_lt.mp (fun hgt => hrange ⟨ho, hgt⟩)
      by_cases hdup : mapIndex options env.sriovVlan ≠ "" ∧
          checkVlanNwExist { s with calls := s.calls ++ [Call.getNetworkByGateway gateway] }
            (parsedVlan env options) = true
      · rw [if_pos hdup]
        simp only [Except.error.injEq, Prod.mk.injEq, reduceCtorEq, false_imp_iff,
          implies_true, and_true]
        rintro s1 e1 ⟨rfl, -⟩
        simp
      · rw [if_neg hdup]
        have hck : parsedVlan env options ≠ 0 →
            checkVlanNwExist s (parsedVlan env options) = false := by
          intro hne
          by_cases ho : mapIndex options env.sriovVlan = ""
          · exact absurd (by simp [parsedVlan, ho]) hne
          · have := fun hc => hdup ⟨ho, hc⟩
            rw [checkVlanNwExist_calls] at this
            simpa using this
        cases hmax : (env.netdevGetMaxVFCount (s.calls ++ [Call.getNetworkByGateway gateway])
            (mapIndex options env.networkDevice)).2 with
        | some e =>
          simp only [Except.error.injEq, Prod.mk.injEq, reduceCtorEq, false_imp_iff,
            implies_true, and_true]
          rintro s1 e1 ⟨rfl, -⟩
          simp +contextual [Function.update]
        | none =>
          simp only
          cases hcur : (env.netdevGetEnabledVFCount
              (s.calls ++ [Call.getNetworkByGateway gateway] ++
                [Call.netdevGetMaxVFCount (mapIndex options env.networkDevice)])
              (mapIndex options env.networkDevice)).2 with
          | some e =>
            simp only [Except.error.injEq, Prod.mk.injEq, reduceCtorEq, false_imp_iff,
              implies_true, and_true]
            rintro s1 e1 ⟨rfl, -⟩
            simp +contextual [Function.update]
          | none =>
            simp only [Except.ok.injEq, reduceCtorEq, false_imp_iff, implies_true, true_and]
            rintro s2 rfl
            simp +contextual [Function.update, hle, hck]

theorem CreateNetwork_frame {env : Env} {s s1 : State} {nw : Nat} {genNw : genericNetwork}
    {nid : String} {options : List (String × String)} {gateway : String}
    {err : Option String}
    (h : CreateNetwork env s nw genNw nid options gateway = some (s1, err)) :
    (∀ q, q ≠ nw → s1.heap q = s.heap q) ∧ s1.next = s.next ∧
    (err ≠ none → s1.networks = s.networks ∧ (s1.heap nw).vlan = (s.heap nw).vlan) ∧
    (err = none → s1.networks = mapInsert s.networks nid nw ∧
      (s1.heap nw).vlan = parsedVlan env options ∧
      parsedVlan env options ≤ 4095 ∧
      (parsedVlan env options ≠ 0 → checkVlanNwExist s (parsedVlan env options) = false)) := by
  obtain ⟨hE, hO⟩ := prepare_frame env s nw genNw options gateway
  unfold CreateNetwork at h
  split at h
  · rename_i sE e hp
    simp only [Option.some.injEq, Prod.mk.injEq] at h
    obtain ⟨rfl, rfl⟩ := h
    obtain ⟨h1, h2, h3, h4⟩ := hE _ _ hp
    exact ⟨h1, h2, fun _ => ⟨h3, h4⟩, fun hc => absurd hc (by simp)⟩
  · rename_i s2 hp
    obtain ⟨h1, h2, h3, h4, -, hle, hck⟩ := hO _ hp
    split at h
    · exact absurd h (by simp)
    · rename_i d hd
      have hv := DiscoverVFs_vlan hd
      cases hret : d.ret with
      | some e =>
        simp only [hret, Option.some.injEq, Prod.mk.injEq] at h
        obtain ⟨rfl, rfl⟩ := h
        simp +contextual [Function.update, hv, h1, h2, h3, h4]
      | none =>
        simp only [hret, Option.some.injEq, Prod.mk.injEq] at h
        obtain ⟨rfl, rfl⟩ := h
        have hnet : (if s.networks = [] then [] else s.networks) = s.networks := by
          split
          · rename_i hnil
            exact hnil.symm
          · rfl
        simp +contextual [Function.update, hle, hck, hnet, h1, h2, h3]

theorem DeleteNetwork_frame {s s1 : State} {nw : Nat} (h : DeleteNetwork s nw = some s1) :
    s1.next = s.next ∧ (∀ q, (s1.heap q).vlan = (s.heap q).vlan) ∧
    (∀ e ∈ s1.networks, e ∈ s.networks) := by
  unfold DeleteNetwork at h
  split at h
  · exact absurd h (by simp)
  · rename_i o ho
    have hv := disableSRIOV_vlan ho
    split at h
    · exact absurd h (by simp)
    · rename_i g hg
      simp only [Option.some.injEq] at h
      subst h
      refine ⟨rfl, ?_, ?_⟩
      · intro q
        by_cases hq : q = nw
        · subst hq
          simp [hv]
        · simp [Function.update, hq]
      · intro e he
        exact ((mem_mapDelete _ _ _).mp he).1

theorem RegistryInv_init : RegistryInv State.init := by
  constructor
  · intro e1 he1
    simp [State.init] at he1
  · intro e he
    simp [State.init] at he

theorem RegistryInv_delete {s s1 : State} {nw : Nat} (hinv : RegistryInv s)
    (h : DeleteNetwork s nw = some s1) : RegistryInv s1 := by
  obtain ⟨hnext, hvlan, hsub⟩ := DeleteNetwork_frame h
  constructor
  · intro e1 he1 e2 he2 hne
    rw [hvlan, hvlan]
    exact hinv.1 e1 (hsub e1 he1) e2 (hsub e2 he2) hne
  · intro e he
    rw [hnext]
    exact hinv.2 e (hsub e he)

theorem RegistryInv_create {env : Env} {s s1 : State} {genNw : genericNetwork}
    {nid : String} {options : List (String × String)} {gateway : String}
    {err : Option String} (hinv : RegistryInv s)
    (h : CreateNetwork env s.new.1 s.new.2 genNw nid options gateway = some (s1, err)) :
    RegistryInv s1 := by
  obtain ⟨hheap, hnext, herr, hok⟩ := CreateNetwork_frame h
  have hold : ∀ e ∈ s.networks, s1.heap e.2 = s.heap e.2 := by
    intro e he
    have hlt := hinv.2 e he
    have hne : e.2 ≠ s.new.2 := by
      simp only [State.new]
      omega
    rw [hheap e.2 hne]
    simp only [State.new] at hne
    simp [State.new, Function.update, hne]
  cases err with
  | some e0 =>
    obtain ⟨hnet, -⟩ := herr (by simp)
    have hnet1 : s1.networks = s.networks := hnet
    constructor
    · intro e1 he1 e2 he2 hne
      rw [hnet1] at he1 he2
      rw [hold e1 he1, hold e2 he2]
      exact hinv.1 e1 he1 e2 he2 hne
    · intro e he
      rw [hnet1] at he
      rw [hnext]
      exact Nat.lt_succ_of_lt (hinv.2 e he)
  | none =>
    obtain ⟨hnet, hvl, -, hck⟩ := hok rfl
    have hnet1 : s1.networks = mapInsert s.networks nid s.next := hnet
    have hvl1 : (s1.heap s.next).vlan = parsedVlan env options := hvl
    have hfresh : parsedVlan env options ≠ 0 →
        ∀ e ∈ s.networks, (s.heap e.2).vlan ≠ parsedVlan env options := by
      intro hv e he
      have hc := checkVlanNwExist_eq_false (hck hv) hv e he
      have hlt := hinv.2 e he
      have hne : e.2 ≠ s.next := by omega
      simpa [State.new, Function.update, hne] using hc
    constructor
    · intro e1 he1 e2 he2 hne
      rw [hnet1, mem_mapInsert] at he1 he2
      rcases he1 with rfl | ⟨he1, -⟩ <;> rcases he2 with rfl | ⟨he2, -⟩
      · exact absurd rfl hne
      · intro hv
        rw [hold e2 he2]
        simp only [hvl1] at hv ⊢
        exact fun heq => hfresh hv e2 he2 heq.symm
      · intro hv
        rw [hold e1 he1] at hv ⊢
        simp only [hvl1]
        by_cases hz : parsedVlan env options = 0
        · rw [hz]
          exact hv
        · exact hfresh hz e1 he1
      · rw [hold e1 he1, hold e2 he2]
        exact hinv.1 e1 he1 e2 he2 hne
    · intro e he
      rw [hnet1, mem_mapInsert] at he
      rw [hnext]
      rcases he with rfl | ⟨he, -⟩
      · simp [State.new]
      · exact Nat.lt_succ_of_lt (hinv.2 e he)

theorem RegistryInv_run {env : Env} (ops : List NetOp) :
    ∀ {s s1 : State}, RegistryInv s → NetOp.run env s ops = some s1 → RegistryInv s1 := by
  induction ops with
  | nil =>
    intro s s1 hinv h
    simp only [NetOp.run, Option.some.injEq] at h
    exact h ▸ hinv
  | cons op ops ih =>
    intro s s1 hinv h
    simp only [NetOp.run] at h
    cases hstep : NetOp.step env s op with
    | none => simp [hstep] at h
    | some s2 =>
      simp only [hstep, Option.some_bind] at h
      refine ih ?_ h
      cases op with
      | create genNw nid options gateway =>
        simp only [NetOp.step, Option.map_eq_some'] at hstep
        obtain ⟨⟨s3, err⟩, hc, rfl⟩ := hstep
        exact RegistryInv_create hinv hc
      | delete nw =>
        exact RegistryInv_delete hinv hstep

/-- C1: starting from the empty registry, after every sequence of `CreateNetwork` calls
(each on a newly made `sriovNetwork`) and `DeleteNetwork` calls, whatever the external
functions answer, no two registered network ids hold the same non-zero vlan. -/
theorem vlan_unique_reachable (env : Env) (ops : List NetOp) (s : State)
    (h : NetOp.run env State.init ops = some s) : VlanUnique s :=
  (RegistryInv_run ops RegistryInv_init h).1

theorem vlan_unique_reachable_witness :
    NetOp.run envOK State.init demoOps = some demoState ∧ VlanUnique demoState :=
  ⟨rfl, vlan_unique_reachable envOK demoOps demoState rfl⟩

/-- The registry after `demoOps`: the refused creation left no entry, the deleted network
is gone, and two networks with different vlans are registered. -/
theorem demoState_networks :
    demoState.networks = [("netC", 3), ("netB", 1)] ∧
    (demoState.heap 3).vlan = 10 ∧ (demoState.heap 1).vlan = 20 ∧
    (demoState.heap 2).vlan = 0 ∧ (demoState.heap 0).state = SRIOV_DISABLED := by
  decide

/-! ## `DiscoverVFs` case by case -/

theorem SRIOV_ENABLED_ne_DISABLED : SRIOV_ENABLED ≠ SRIOV_DISABLED := by decide

theorem enumerate_skip (env : Env) (nw : sriovNetwork) (calls : List Call)
    (h : nw.discoveredVFCount ≠ 0) :
    DiscoverVFs.enumerate env nw calls = some { nw := nw, calls := calls, ret := none } := by
  simp [DiscoverVFs.enumerate, h]

theorem enumerate_ok (env : Env) (nw : sriovNetwork) (calls : List Call) (g : genericNetwork)
    (names : List String) (h0 : nw.discoveredVFCount = 0) (hg : nw.genNw = some g)
    (hl : env.vfDevList calls g.ndevName = (names, none)) :
    DiscoverVFs.enumerate env nw calls =
      some { nw := { nw with vfDevList := names, discoveredVFCount := (names.length : Int) },
             calls := calls ++ [Call.vfDevList g.ndevName], ret := none } := by
  simp [DiscoverVFs.enumerate, h0, hg, hl]

theorem enumerate_fail (env : Env) (nw : sriovNetwork) (calls : List Call)
    (g : genericNetwork) (names : List String) (e : String)
    (h0 : nw.discoveredVFCount = 0) (hg : nw.genNw = some g)
    (hl : env.vfDevList calls g.ndevName = (names, some e)) :
    DiscoverVFs.enumerate env nw calls =
      some { nw := { nw with state := SRIOV_DISABLED, vfDevList := [], discoveredVFCount := 0 },
             calls := calls ++ [Call.vfDevList g.ndevName, Call.netdevDisableSRIOV g.ndevName],
             ret := some e } := by
  simp [DiscoverVFs.enumerate, h0, hg, hl, disableSRIOV]

theorem DiscoverVFs_enabled (env : Env) (nw : sriovNetwork) (calls : List Call)
    (h : nw.state ≠ SRIOV_DISABLED) :
    DiscoverVFs env nw calls = DiscoverVFs.enumerate env nw calls := by
  simp [DiscoverVFs, h]

theorem DiscoverVFs_disabled_ok (env : Env) (nw : sriovNetwork) (calls : List Call)
    (g : genericNetwork) (h : nw.state = SRIOV_DISABLED) (hg : nw.genNw = some g)
    (he : env.netdevEnableSRIOV calls g.ndevName = none) :
    DiscoverVFs env nw calls =
      DiscoverVFs.enumerate env { nw with state := SRIOV_ENABLED }
        (calls ++ [Call.netdevEnableSRIOV g.ndevName]) := by
  simp [DiscoverVFs, h, hg, he]

theorem DiscoverVFs_disabled_fail (env : Env) (nw : sriovNetwork) (calls : List Call)
    (g : genericNetwork) (e : String) (h : nw.state = SRIOV_DISABLED) (hg : nw.genNw = some g)
    (he : env.netdevEnableSRIOV calls g.ndevName = some e) :
    DiscoverVFs env nw calls =
      some { nw := nw, calls := calls ++ [Call.netdevEnableSRIOV g.ndevName],
             ret := some e } := by
  simp [DiscoverVFs, h, hg, he]

/-- No panic in `DiscoverVFs` on a network whose `genNw` is set. -/
theorem DiscoverVFs_isSome (env : Env) (nw : sriovNetwork) (calls : List Call)
    (g : genericNetwork) (hg : nw.genNw = some g) :
    (DiscoverVFs env nw calls).isSome = true := by
  have henum : ∀ (nw1 : sriovNetwork) (c : List Call), nw1.genNw = some g →
      (DiscoverVFs.enumerate env nw1 c).isSome = true := by
    intro nw1 c hg1
    by_cases h0 : nw1.discoveredVFCount = 0
    · cases hl : env.vfDevList c g.ndevName with
      | mk names err =>
        cases err with
        | none => rw [enumerate_ok env nw1 c g names h0 hg1 hl]; rfl
        | some e => rw [enumerate_fail env nw1 c g names e h0 hg1 hl]; rfl
    · rw [enumerate_skip env nw1 c h0]; rfl
  by_cases hs : nw.state = SRIOV_DISABLED
  · cases he : env.netdevEnableSRIOV calls g.ndevName with
    | none =>
      rw [DiscoverVFs_disabled_ok env nw calls g hs hg he]
      exact henum _ _ hg
    | some e => rw [DiscoverVFs_disabled_fail env nw calls g e hs hg he]; rfl
  · rw [DiscoverVFs_enabled env nw calls hs]
    exact henum _ _ hg

/-! ## `CreateNetwork.prepare` case by case -/

theorem parsedVlan_eq_Atoi (env : Env) (options : List (String × String)) :
    parsedVlan env options = Atoi (mapIndex options env.sriovVlan) := by
  unfold parsedVlan
  split
  · rfl
  · rename_i h
    have h1 : mapIndex options env.sriovVlan = "" := not_not.mp h
    rw [h1]
    decide

theorem checkVlanNwExist_zero (s : State) : checkVlanNwExist s 0 = false := by
  simp [checkVlanNwExist]

theorem checkVlanNwExist_eq_true_iff (s : State) (vlan : Int) :
    checkVlanNwExist s vlan = true ↔
      vlan ≠ 0 ∧ ∃ e ∈ s.networks, (s.heap e.2).vlan = vlan := by
  simp only [checkVlanNwExist, List.any_eq_true, decide_eq_true_eq]
  constructor
  · rintro ⟨e, he, hv, heq⟩
    exact ⟨hv, e, he, heq⟩
  · rintro ⟨hv, e, he, heq⟩
    exact ⟨e, he, hv, heq⟩

/-- When the validation lets the call through and both capability queries succeed, line
76 is reached with `genNw`, `maxVFCount` and `state` of the receiver set. -/
theorem prepare_ok (env : Env) (s : State) (nw : Nat) (genNw : genericNetwork)
    (options : List (String × String)) (gateway : String)
    (hval : PassesValidation env s options gateway)
    (hmax : (maxAnswer env s options gateway).2 = none)
    (hcur : (curAnswer env s options gateway).2 = none) :
    CreateNetwork.prepare env s nw genNw options gateway =
      Except.ok
        { s with
          heap := Function.update s.heap nw
            { s.heap nw with
              genNw := some genNw,
              maxVFCount := (maxAnswer env s options gateway).1,
              state := if (curAnswer env s options gateway).1 ≠ 0 then SRIOV_ENABLED
                       else SRIOV_DISABLED },
          calls := callsAtDiscover env s options gateway } := by
  obtain ⟨hgw, hle, hck⟩ := hval
  unfold maxAnswer at hmax
  unfold curAnswer at hcur
  have hcur1 : (env.netdevGetEnabledVFCount
      (s.calls ++ [Call.getNetworkByGateway gateway] ++
        [Call.netdevGetMaxVFCount (mapIndex options env.networkDevice)])
      (mapIndex options env.networkDevice)).2 = none := by
    simpa using hcur
  have hle1 : ¬ (parsedVlan env options > 4095) := not_lt.mpr hle
  unfold CreateNetwork.prepare
  simp only [hgw, hle1, and_false, if_false, checkVlanNwExist_calls, hck, Bool.false_eq_true,
    hmax, hcur1, maxAnswer, curAnswer, callsAtDiscover, Function.update_idem,
    Function.update_same, List.append_assoc, List.singleton_append, List.cons_append,
    List.nil_append]
  simp only [hcur]

/-- No panic in `CreateNetwork`: it always returns. -/
theorem CreateNetwork_isSome (env : Env) (s : State) (nw : Nat) (genNw : genericNetwork)
    (nid : String) (options : List (String × String)) (gateway : String) :
    (CreateNetwork env s nw genNw nid options gateway).isSome = true := by
  obtain ⟨-, hO⟩ := prepare_frame env s nw genNw options gateway
  unfold CreateNetwork
  split
  · rfl
  · rename_i s2 hp
    obtain ⟨-, -, -, -, hg, -, -⟩ := hO _ hp
    have hd := DiscoverVFs_isSome env (s2.heap nw) s2.calls genNw hg
    cases hdv : DiscoverVFs env (s2.heap nw) s2.calls with
    | none => simp [hdv] at hd
    | some d =>
      simp only
      cases d.ret <;> rfl

/-! ## `CreateNetwork` -/

theorem mapInsert_lookup {β : Type} (m : List (String × β)) (k : String) (v : β) :
    (mapInsert m k v).lookup k = some v := by
  simp [mapInsert, List.lookup]

theorem networks_reset (m : List (String × Nat)) :
    (if m.length = 0 then [] else m) = m := by
  split
  · rename_i h
    exact (List.length_eq_zero.mp h).symm
  · rfl

/-- C2 (the code at the failing input): the vlan option "-5" passes the range check of
line 53, `CreateNetwork` returns no error and the registered network stores vlan -5,
which is below 0; the same call with the option "4096" is refused with the error
"vlan id out of range". -/
theorem CreateNetwork_accepts_negative_vlan :
    (∃ s1, CreateNetwork envOK State.init.new.1 State.init.new.2 genA "netA"
        [("netdevice", "ens1"), ("vlan", "-5")] "10.0.0.1" = some (s1, none) ∧
      s1.networks = [("netA", 0)] ∧ (s1.heap 0).vlan = -5 ∧ ¬ (0 ≤ (s1.heap 0).vlan)) ∧
    (∃ s1, CreateNetwork envOK State.init.new.1 State.init.new.2 genA "netA"
        [("netdevice", "ens1"), ("vlan", "4096")] "10.0.0.1"
        = some (s1, some "vlan id out of range")) :=
  ⟨⟨_, rfl, rfl, by decide, by decide⟩, ⟨_, rfl⟩⟩

/-- C3: when the vlan option is above 4095, or is the non-zero vlan of a registered
network, `CreateNetwork` returns an error, no object in memory and no entry of `networks`
changes (so neither the registered networks nor the receiver change), and the only
external call made is the gateway check: no capability query, no enable, no listing. -/
theorem validation_failure_mutates_nothing (env : Env) (s : State) (nw : Nat)
    (genNw : genericNetwork) (nid : String) (options : List (String × String))
    (gateway : String)
    (h : Atoi (mapIndex options env.sriovVlan) > 4095 ∨
      (Atoi (mapIndex options env.sriovVlan) ≠ 0 ∧
        ∃ x ∈ s.networks, (s.heap x.2).vlan = Atoi (mapIndex options env.sriovVlan))) :
    ∃ s1 e, CreateNetwork env s nw genNw nid options gateway = some (s1, some e) ∧
      s1.networks = s.networks ∧ s1.heap = s.heap ∧ s1.next = s.next ∧
      s1.calls = s.calls ++ [Call.getNetworkByGateway gateway] ∧
      (env.getNetworkByGateway s.calls gateway = none →
        e = "vlan id out of range" ∨ e = "vlan already exist") := by
  have hopt : mapIndex options env.sriovVlan ≠ "" := by
    intro h0
    rw [h0] at h
    have hz : Atoi "" = 0 := by decide
    rw [hz] at h
    rcases h with h | h
    · exact absurd h (by decide)
    · exact h.1 rfl
  have hpv := parsedVlan_eq_Atoi env options
  unfold CreateNetwork CreateNetwork.prepare
  simp only
  cases hgw : env.getNetworkByGateway s.calls gateway with
  | some e0 => exact ⟨_, e0, rfl, rfl, rfl, rfl, rfl, fun hc => absurd hc (by simp)⟩
  | none =>
    simp only
    by_cases hrange : Atoi (mapIndex options env.sriovVlan) > 4095
    · rw [if_pos ⟨hopt, hpv ▸ hrange⟩]
      exact ⟨_, _, rfl, rfl, rfl, rfl, rfl, fun _ => Or.inl rfl⟩
    · rw [if_neg (fun hc => hrange (hpv ▸ hc.2))]
      have hdup : checkVlanNwExist
          { s with calls := s.calls ++ [Call.getNetworkByGateway gateway] }
          (parsedVlan env options) = true := by
        rw [checkVlanNwExist_calls, checkVlanNwExist_eq_true_iff, hpv]
        rcases h with h | h
        · exact absurd h hrange
        · exact h
      rw [if_pos ⟨hopt, hdup⟩]
      exact ⟨_, _, rfl, rfl, rfl, rfl, rfl, fun _ => Or.inr rfl⟩

theorem validation_failure_mutates_nothing_witness :
    (Atoi (mapIndex [("netdevice", "ens2"), ("vlan", "10")] envOK.sriovVlan) ≠ 0 ∧
      ∃ x ∈ stateA.networks,
        (stateA.heap x.2).vlan =
          Atoi (mapIndex [("netdevice", "ens2"), ("vlan", "10")] envOK.sriovVlan)) ∧
    ∃ s1 e, CreateNetwork envOK stateA 1 genB "netB"
        [("netdevice", "ens2"), ("vlan", "10")] "10.0.1.1" = some (s1, some e) ∧
      s1.networks = stateA.networks ∧ s1.heap = stateA.heap ∧ s1.next = stateA.next ∧
      s1.calls = stateA.calls ++ [Call.getNetworkByGateway "10.0.1.1"] ∧
      (envOK.getNetworkByGateway stateA.calls "10.0.1.1" = none →
        e = "vlan id out of range" ∨ e = "vlan already exist") :=
  ⟨⟨by decide, ("netA", 0), by decide, by decide⟩,
   validation_failure_mutates_nothing envOK stateA 1 genB "netB"
     [("netdevice", "ens2"), ("vlan", "10")] "10.0.1.1"
     (Or.inr ⟨by decide, ("netA", 0), by decide, by decide⟩)⟩

/-- What `DiscoverVFs` does at line 76 when the listing of the VF names fails. -/
theorem DiscoverVFs_list_fails (env : Env) (nw : sriovNetwork) (calls : List Call)
    (g : genericNetwork) (names : List String) (e : String) (cur : Int)
    (hst : nw.state = if cur ≠ 0 then SRIOV_ENABLED else SRIOV_DISABLED)
    (h0 : nw.discoveredVFCount = 0) (hg : nw.genNw = some g)
    (hen : cur = 0 → env.netdevEnableSRIOV calls g.ndevName = none)
    (hl : env.vfDevList
        (calls ++ (if cur ≠ 0 then [] else [Call.netdevEnableSRIOV g.ndevName]))
        g.ndevName = (names, some e)) :
    DiscoverVFs env nw calls =
      some { nw := { nw with state := SRIOV_DISABLED, vfDevList := [], discoveredVFCount := 0 },
             calls := calls ++ (if cur ≠ 0 then [] else [Call.netdevEnableSRIOV g.ndevName])
               ++ [Call.vfDevList g.ndevName, Call.netdevDisableSRIOV g.ndevName],
             ret := some e } := by
  by_cases hc : cur = 0
  · have hs : nw.state = SRIOV_DISABLED := by simpa [hc] using hst
    simp only [hc, ne_eq, not_true_eq_false, if_false] at hl ⊢
    rw [DiscoverVFs_disabled_ok env nw calls g hs hg (hen hc)]
    exact enumerate_fail env { nw with state := SRIOV_ENABLED } _ g names e h0 hg hl
  · have hs : nw.state = SRIOV_ENABLED := by simpa [hc] using hst
    have hs1 : nw.state ≠ SRIOV_DISABLED := hs ▸ SRIOV_ENABLED_ne_DISABLED
    simp only [ne_eq, hc, not_false_eq_true, if_true, List.append_nil] at hl ⊢
    rw [DiscoverVFs_enabled env nw calls hs1]
    rw [enumerate_fail env nw calls g names e h0 hg hl]

/-- What `DiscoverVFs` does at line 76 when every call succeeds. -/
theorem DiscoverVFs_all_ok (env : Env) (nw : sriovNetwork) (calls : List Call)
    (g : genericNetwork) (names : List String) (cur : Int)
    (hst : nw.state = if cur ≠ 0 then SRIOV_ENABLED else SRIOV_DISABLED)
    (h0 : nw.discoveredVFCount = 0) (hg : nw.genNw = some g)
    (hen : cur = 0 → env.netdevEnableSRIOV calls g.ndevName = none)
    (hl : env.vfDevList
        (calls ++ (if cur ≠ 0 then [] else [Call.netdevEnableSRIOV g.ndevName]))
        g.ndevName = (names, none)) :
    DiscoverVFs env nw calls =
      some { nw := { nw with state := SRIOV_ENABLED, vfDevList := names,
                             discoveredVFCount := (names.length : Int) },
             calls := calls ++ (if cur ≠ 0 then [] else [Call.netdevEnableSRIOV g.ndevName])
               ++ [Call.vfDevList g.ndevName],
             ret := none } := by
  by_cases hc : cur = 0
  · have hs : nw.state = SRIOV_DISABLED := by simpa [hc] using hst
    simp only [hc, ne_eq, not_true_eq_false, if_false] at hl ⊢
    rw [DiscoverVFs_disabled_ok env nw calls g hs hg (hen hc)]
    exact enumerate_ok env { nw with state := SRIOV_ENABLED } _ g names h0 hg hl
  · have hs : nw.state = SRIOV_ENABLED := by simpa [hc] using hst
    have hs1 : nw.state ≠ SRIOV_DISABLED := hs ▸ SRIOV_ENABLED_ne_DISABLED
    simp only [ne_eq, hc, not_false_eq_true, if_true, List.append_nil] at hl ⊢
    rw [DiscoverVFs_enabled env nw calls hs1]
    rw [enumerate_ok env nw calls g names h0 hg hl]
    cases nw
    simp only at hs
    simp [hs]

/-- C4: on a fresh network (nothing discovered yet, not referenced by `networks`, its id
not registered), when the validation passes, both capability queries succeed, enabling
succeeds if it is needed, and listing the VF names fails with error `e`, `CreateNetwork`
returns `e`; the network is left DISABLED with an empty pool and `discoveredVFCount` 0,
whether VFs were found enabled or not; `networks` and every other object are unchanged,
and `networks` has no entry for the id nor for the network. -/
theorem discovery_failure_rolls_back (env : Env) (s : State) (nw : Nat)
    (genNw : genericNetwork) (nid : String) (options : List (String × String))
    (gateway : String) (names : List String) (e : String)
    (hfresh : (s.heap nw).discoveredVFCount = 0)
    (hptr : ∀ x ∈ s.networks, x.2 ≠ nw)
    (hid : s.networks.lookup nid = none)
    (hval : PassesValidation env s options gateway)
    (hmax : (maxAnswer env s options gateway).2 = none)
    (hcur : (curAnswer env s options gateway).2 = none)
    (hen : (curAnswer env s options gateway).1 = 0 →
      enableAnswer env s genNw options gateway = none)
    (hlist : listAnswer env s genNw options gateway = (names, some e)) :
    ∃ s1, CreateNetwork env s nw genNw nid options gateway = some (s1, some e) ∧
      (s1.heap nw).state = SRIOV_DISABLED ∧ (s1.heap nw).vfDevList = [] ∧
      (s1.heap nw).discoveredVFCount = 0 ∧
      s1.networks = s.networks ∧
      (∀ q, q ≠ nw → s1.heap q = s.heap q) ∧
      (∀ x ∈ s1.networks, s1.heap x.2 = s.heap x.2) ∧
      s1.networks.lookup nid = none ∧ (∀ x ∈ s1.networks, x.2 ≠ nw) := by
  have hd := DiscoverVFs_list_fails env
    { s.heap nw with
      genNw := some genNw,
      maxVFCount := (maxAnswer env s options gateway).1,
      state := if (curAnswer env s options gateway).1 ≠ 0 then SRIOV_ENABLED
               else SRIOV_DISABLED }
    (callsAtDiscover env s options gateway) genNw names e
    (curAnswer env s options gateway).1 rfl hfresh rfl hen hlist
  unfold CreateNetwork
  rw [prepare_ok env s nw genNw options gateway hval hmax hcur]
  simp only [Function.update_same, hd]
  refine ⟨_, rfl, ?_, ?_, ?_, rfl, ?_, ?_, hid, hptr⟩
  · simp only [Function.update_same]
  · simp only [Function.update_same]
  · simp only [Function.update_same]
  · intro q hq
    simp [Function.update, hq]
  · intro x hx
    simp [Function.update, hptr x hx]

theorem discovery_failure_rolls_back_witness :
    ∃ s1, CreateNetwork envListFails State.init.new.1 State.init.new.2 genA "netA"
        [("netdevice", "ens1"), ("vlan", "10")] "10.0.0.1"
        = some (s1, some "cannot list VFs") ∧
      (s1.heap State.init.new.2).state = SRIOV_DISABLED ∧
      (s1.heap State.init.new.2).vfDevList = [] ∧
      (s1.heap State.init.new.2).discoveredVFCount = 0 ∧
      s1.networks = State.init.new.1.networks ∧
      (∀ q, q ≠ State.init.new.2 → s1.heap q = State.init.new.1.heap q) ∧
      (∀ x ∈ s1.networks, s1.heap x.2 = State.init.new.1.heap x.2) ∧
      s1.networks.lookup "netA" = none ∧ (∀ x ∈ s1.networks, x.2 ≠ State.init.new.2) :=
  discovery_failure_rolls_back envListFails State.init.new.1 State.init.new.2 genA "netA"
    [("netdevice", "ens1"), ("vlan", "10")] "10.0.0.1" [] "cannot list VFs"
    (by decide) (by decide) (by decide) (by decide) (by decide) (by decide) (by decide)
    (by decide)

/-- C5: on a fresh network (`discoveredVFCount` 0), when the validation passes and every
device call succeeds: line 76 is reached with state ENABLED iff the queried count of
enabled VFs is not zero; the enable call is made iff that count is zero; and
`CreateNetwork` returns no error with the network ENABLED, its pool equal to the listed
names in the listed order, `discoveredVFCount` their number, `maxVFCount` the queried
capacity, the parsed vlan stored, and `networks[nid]` being this network. -/
theorem create_success_postcondition (env : Env) (s : State) (nw : Nat)
    (genNw : genericNetwork) (nid : String) (options : List (String × String))
    (gateway : String) (names : List String)
    (hfresh : (s.heap nw).discoveredVFCount = 0)
    (hval : PassesValidation env s options gateway)
    (hmax : (maxAnswer env s options gateway).2 = none)
    (hcur : (curAnswer env s options gateway).2 = none)
    (hen : (curAnswer env s options gateway).1 = 0 →
      enableAnswer env s genNw options gateway = none)
    (hlist : listAnswer env s genNw options gateway = (names, none)) :
    (∃ s2, CreateNetwork.prepare env s nw genNw options gateway = Except.ok s2 ∧
      ((s2.heap nw).state = SRIOV_ENABLED ↔ (curAnswer env s options gateway).1 ≠ 0) ∧
      ((s2.heap nw).state = SRIOV_DISABLED ↔ (curAnswer env s options gateway).1 = 0)) ∧
    ∃ s1, CreateNetwork env s nw genNw nid options gateway = some (s1, none) ∧
      s1.calls = callsAtEnumerate env s genNw options gateway
        ++ [Call.vfDevList genNw.ndevName] ∧
      (Call.netdevEnableSRIOV genNw.ndevName ∈ s1.calls.drop s.calls.length ↔
        (curAnswer env s options gateway).1 = 0) ∧
      (s1.heap nw).state = SRIOV_ENABLED ∧
      (s1.heap nw).vfDevList = names ∧
      (s1.heap nw).discoveredVFCount = (names.length : Int) ∧
      (s1.heap nw).maxVFCount = (maxAnswer env s options gateway).1 ∧
      (s1.heap nw).vlan = parsedVlan env options ∧
      (s1.heap nw).genNw = some genNw ∧
      s1.networks.lookup nid = some nw := by
  have hd := DiscoverVFs_all_ok env
    { s.heap nw with
      genNw := some genNw,
      maxVFCount := (maxAnswer env s options gateway).1,
      state := if (curAnswer env s options gateway).1 ≠ 0 then SRIOV_ENABLED
               else SRIOV_DISABLED }
    (callsAtDiscover env s options gateway) genNw names
    (curAnswer env s options gateway).1 rfl hfresh rfl hen hlist
  constructor
  · refine ⟨_, prepare_ok env s nw genNw options gateway hval hmax hcur, ?_, ?_⟩
    · simp only [Function.update_same]
      by_cases hc : (curAnswer env s options gateway).1 = 0
      · simp only [hc, ne_eq, not_true_eq_false, if_false, iff_false]
        exact fun h => SRIOV_ENABLED_ne_DISABLED h.symm
      · simp [hc]
    · simp only [Function.update_same]
      by_cases hc : (curAnswer env s options gateway).1 = 0
      · simp [hc]
      · simp only [ne_eq, hc, not_false_eq_true, if_true, iff_false]
        exact SRIOV_ENABLED_ne_DISABLED
  · unfold CreateNetwork
    rw [prepare_ok env s nw genNw options gateway hval hmax hcur]
    simp only [Function.update_same, hd, Function.update_idem, networks_reset]
    refine ⟨_, rfl, rfl, ?_, ?_, ?_, ?_, ?_, ?_, ?_, mapInsert_lookup _ _ _⟩
    · simp only [callsAtDiscover, List.append_assoc, List.drop_left]
      by_cases hc : (curAnswer env s options gateway).1 = 0
      · simp [hc]
      · simp [hc]
    all_goals simp only [Function.update_same]

theorem create_success_postcondition_witness :
    (∃ s2, CreateNetwork.prepare envOK State.init.new.1 State.init.new.2 genA
        [("netdevice", "ens1"), ("vlan", "10")] "10.0.0.1" = Except.ok s2 ∧
      ((s2.heap State.init.new.2).state = SRIOV_ENABLED ↔
        (curAnswer envOK State.init.new.1 [("netdevice", "ens1"), ("vlan", "10")]
          "10.0.0.1").1 ≠ 0) ∧
      ((s2.heap State.init.new.2).state = SRIOV_DISABLED ↔
        (curAnswer envOK State.init.new.1 [("netdevice", "ens1"), ("vlan", "10")]
          "10.0.0.1").1 = 0)) ∧
    ∃ s1, CreateNetwork envOK State.init.new.1 State.init.new.2 genA "netA"
        [("netdevice", "ens1"), ("vlan", "10")] "10.0.0.1" = some (s1, none) ∧
      s1.calls = callsAtEnumerate envOK State.init.new.1 genA
          [("netdevice", "ens1"), ("vlan", "10")] "10.0.0.1"
        ++ [Call.vfDevList genA.ndevName] ∧
      (Call.netdevEnableSRIOV genA.ndevName ∈ s1.calls.drop State.init.new.1.calls.length ↔
        (curAnswer envOK State.init.new.1 [("netdevice", "ens1"), ("vlan", "10")]
          "10.0.0.1").1 = 0) ∧
      (s1.heap State.init.new.2).state = SRIOV_ENABLED ∧
      (s1.heap State.init.new.2).vfDevList = ["vf0", "vf1", "vf2", "vf3"] ∧
      (s1.heap State.init.new.2).discoveredVFCount =
        ((["vf0", "vf1", "vf2", "vf3"] : List String).length : Int) ∧
      (s1.heap State.init.new.2).maxVFCount =
        (maxAnswer envOK State.init.new.1 [("netdevice", "ens1"), ("vlan", "10")]
          "10.0.0.1").1 ∧
      (s1.heap State.init.new.2).vlan =
        parsedVlan envOK [("netdevice", "ens1"), ("vlan", "10")] ∧
      (s1.heap State.init.new.2).genNw = some genA ∧
      s1.networks.lookup "netA" = some State.init.new.2 :=
  create_success_postcondition envOK State.init.new.1 State.init.new.2 genA "netA"
    [("netdevice", "ens1"), ("vlan", "10")] "10.0.0.1" ["vf0", "vf1", "vf2", "vf3"]
    (by decide) (by decide) (by decide) (by decide) (by decide) (by decide)

/-- Scenario A of the specification, run on `envOK`: capacity 4, no VF enabled, vlan 10.
The enable call is made, four VFs are discovered and the pool holds four names. -/
theorem scenario_A :
    stateA.networks = [("netA", 0)] ∧
    (stateA.heap 0).state = SRIOV_ENABLED ∧
    (stateA.heap 0).vfDevList = ["vf0", "vf1", "vf2", "vf3"] ∧
    (stateA.heap 0).discoveredVFCount = 4 ∧ (stateA.heap 0).maxVFCount = 4 ∧
    (stateA.heap 0).vlan = 10 ∧
    stateA.calls = [Call.getNetworkByGateway "10.0.0.1", Call.netdevGetMaxVFCount "ens1",
      Call.netdevGetEnabledVFCount "ens1", Call.netdevEnableSRIOV "ens1",
      Call.vfDevList "ens1"] := by
  decide

/-! ## `AllocVF`, `FreeVF` and the endpoints -/

theorem getD_length_sub_one (p : List String) (x : String) :
    (p ++ [x]).getD ((p ++ [x]).length - 1) "" = x := by
  simp [List.getD_eq_getElem?_getD]

theorem take_length_sub_one (p : List String) (x : String) :
    (p ++ [x]).take ((p ++ [x]).length - 1) = p := by
  simp

theorem exists_append_of_length_ne_zero (l : List String) (h : l.length ≠ 0) :
    ∃ p x, l = p ++ [x] := by
  have hne : l ≠ [] := fun h0 => h (by simp [h0])
  exact ⟨l.dropLast, l.getLast hne, (List.dropLast_append_getLast hne).symm⟩

/-- The result of `AllocVF` on an empty pool. -/
theorem AllocVF_empty (env : Env) (nw : sriovNetwork) (calls : List Call)
    (parentNetdev : String) (h : nw.vfDevList = []) :
    AllocVF env nw calls parentNetdev = { nw := nw, calls := calls, ret := ("", "") } := by
  simp [AllocVF, h]

/-- The result of `AllocVF` when the first resolution of the candidate gives the empty
name. -/
theorem AllocVF_first_empty (env : Env) (nw : sriovNetwork) (calls : List Call)
    (parentNetdev : String) (p : List String) (x : String) (h : nw.vfDevList = p ++ [x])
    (h1 : firstName env calls parentNetdev x = "") :
    AllocVF env nw calls parentNetdev =
      { nw := nw, calls := calls ++ [Call.vfNetdevNameFromParent parentNetdev x],
        ret := ("", "") } := by
  unfold firstName at h1
  unfold AllocVF
  simp only [h, getD_length_sub_one, h1, if_true]
  simp

/-- The result of `AllocVF` when the second resolution of the candidate gives the empty
name. -/
theorem AllocVF_second_empty (env : Env) (nw : sriovNetwork) (calls : List Call)
    (parentNetdev : String) (p : List String) (x : String) (h : nw.vfDevList = p ++ [x])
    (h1 : firstName env calls parentNetdev x ≠ "")
    (h2 : secondName env nw calls parentNetdev x = "") :
    AllocVF env nw calls parentNetdev =
      { nw := nw,
        calls := callsAtSecondResolve env nw calls parentNetdev x
          ++ [Call.vfNetdevNameFromParent parentNetdev x],
        ret := ("", "") } := by
  unfold firstName at h1
  unfold secondName callsAtSecondResolve at h2
  unfold AllocVF
  simp only [h, getD_length_sub_one, h1, if_false, h2, if_true, callsAtSecondResolve]
  simp

/-- The result of `AllocVF` when both resolutions of the candidate give a name. -/
theorem AllocVF_success (env : Env) (nw : sriovNetwork) (calls : List Call)
    (parentNetdev : String) (p : List String) (x : String) (h : nw.vfDevList = p ++ [x])
    (h1 : firstName env calls parentNetdev x ≠ "")
    (h2 : secondName env nw calls parentNetdev x ≠ "") :
    AllocVF env nw calls parentNetdev =
      { nw := { nw with vfDevList := p },
        calls := callsAtSecondResolve env nw calls parentNetdev x
          ++ [Call.vfNetdevNameFromParent parentNetdev x],
        ret := (x, secondName env nw calls parentNetdev x) } := by
  unfold firstName at h1
  have h2a := h2
  unfold secondName callsAtSecondResolve at h2a
  unfold AllocVF
  simp only [h, getD_length_sub_one, take_length_sub_one, h1, if_false, h2a,
    callsAtSecondResolve, secondName]
  simp

/-- Either `AllocVF` returns the empty pair and leaves the network alone, or it returns
the last pool entry with a non-empty name and removes exactly that entry. -/
theorem AllocVF_cases (env : Env) (nw : sriovNetwork) (calls : List Call)
    (parentNetdev : String) :
    ((AllocVF env nw calls parentNetdev).ret = ("", "") ∧
      (AllocVF env nw calls parentNetdev).nw = nw) ∨
    (∃ p x, nw.vfDevList = p ++ [x] ∧
      (AllocVF env nw calls parentNetdev).ret.1 = x ∧
      (AllocVF env nw calls parentNetdev).ret.2 ≠ "" ∧
      (AllocVF env nw calls parentNetdev).nw = { nw with vfDevList := p }) := by
  by_cases hlen : nw.vfDevList.length = 0
  · left
    rw [AllocVF_empty env nw calls parentNetdev (List.length_eq_zero.mp hlen)]
    exact ⟨rfl, rfl⟩
  · obtain ⟨p, x, hp⟩ := exists_append_of_length_ne_zero _ hlen
    by_cases h1 : firstName env calls parentNetdev x = ""
    · left
      rw [AllocVF_first_empty env nw calls parentNetdev p x hp h1]
      exact ⟨rfl, rfl⟩
    · by_cases h2 : secondName env nw calls parentNetdev x = ""
      · left
        rw [AllocVF_second_empty env nw calls parentNetdev p x hp h1 h2]
        exact ⟨rfl, rfl⟩
      · right
        rw [AllocVF_success env nw calls parentNetdev p x hp h1 h2]
        exact ⟨p, x, hp, rfl, h2, rfl⟩

/-- C6: on a network whose pool is empty, `AllocVF` returns the empty pair, makes no
external call and changes nothing; and `CreateEndpoint` (on a network whose `genNw` is
set) returns a nil response with the error "All devices in use [ id ]." for the
request's network id, makes no external call and leaves every field of the network,
the endpoint map included, as it was. -/
theorem exhaustion_no_mutation (env : Env) (nw : sriovNetwork) (calls : List Call)
    (parentNetdev : String) (r : CreateEndpointRequest) (h : nw.vfDevList = []) :
    AllocVF env nw calls parentNetdev = { nw := nw, calls := calls, ret := ("", "") } ∧
    ∀ g, nw.genNw = some g →
      CreateEndpoint env nw calls r =
        some { nw := nw, calls := calls,
               ret := (none, some ("All devices in use [ " ++ r.NetworkID ++ " ].")) } := by
  refine ⟨AllocVF_empty env nw calls parentNetdev h, ?_⟩
  intro g hg
  unfold CreateEndpoint
  simp only [hg, AllocVF_empty env nw calls g.ndevName h, if_true]

theorem exhaustion_no_mutation_witness :
    AllocVF envOK nwEmpty [] "ens1" = { nw := nwEmpty, calls := [], ret := ("", "") } ∧
    CreateEndpoint envOK nwEmpty [] reqA =
      some { nw := nwEmpty, calls := [],
             ret := (none, some "All devices in use [ netA ].") } :=
  ⟨(exhaustion_no_mutation envOK nwEmpty [] "ens1" reqA (by decide)).1,
   (exhaustion_no_mutation envOK nwEmpty [] "ens1" reqA (by decide)).2 genA (by decide)⟩

/-- C7: on a network whose pool is `p ++ [x]` and on which both resolutions of `x` give
a non-empty name, `AllocVF` returns `x` together with the name resolved after the rebind,
and the pool becomes exactly `p`.  Hence, when the network is `FreeVF nw0 x`, the call
returns `x` and gives back `nw0`, pool included. -/
theorem pool_is_lifo (env : Env) (nw : sriovNetwork) (calls : List Call)
    (parentNetdev : String) (p : List String) (x : String)
    (hpool : nw.vfDevList = p ++ [x])
    (h1 : firstName env calls parentNetdev x ≠ "")
    (h2 : secondName env nw calls parentNetdev x ≠ "") :
    (AllocVF env nw calls parentNetdev).ret = (x, secondName env nw calls parentNetdev x) ∧
    (AllocVF env nw calls parentNetdev).nw.vfDevList = p ∧
    (AllocVF env nw calls parentNetdev).nw = { nw with vfDevList := p } ∧
    (∀ nw0, nw = FreeVF nw0 x →
      (AllocVF env nw calls parentNetdev).ret.1 = x ∧
      (AllocVF env nw calls parentNetdev).nw = nw0) := by
  rw [AllocVF_success env nw calls parentNetdev p x hpool h1 h2]
  refine ⟨rfl, rfl, rfl, ?_⟩
  intro nw0 h0
  refine ⟨rfl, ?_⟩
  subst h0
  have hp : p = nw0.vfDevList := by
    have := hpool
    simp only [FreeVF] at this
    exact (List.append_inj_left' this rfl).symm
  subst hp
  rfl

theorem pool_is_lifo_witness :
    (AllocVF envOK (FreeVF nwOne "vf7") [] "ens1").ret =
      ("vf7", secondName envOK (FreeVF nwOne "vf7") [] "ens1" "vf7") ∧
    (AllocVF envOK (FreeVF nwOne "vf7") [] "ens1").nw.vfDevList = ["vf0"] ∧
    (AllocVF envOK (FreeVF nwOne "vf7") [] "ens1").nw =
      { FreeVF nwOne "vf7" with vfDevList := ["vf0"] } ∧
    (∀ nw0, FreeVF nwOne "vf7" = FreeVF nw0 "vf7" →
      (AllocVF envOK (FreeVF nwOne "vf7") [] "ens1").ret.1 = "vf7" ∧
      (AllocVF envOK (FreeVF nwOne "vf7") [] "ens1").nw = nw0) :=
  pool_is_lifo envOK (FreeVF nwOne "vf7") [] "ens1" ["vf0"] "vf7" (by decide) (by decide)
    (by decide)

/-- The field `genNw` is never assigned by `AllocVF`. -/
theorem AllocVF_genNw (env : Env) (nw : sriovNetwork) (calls : List Call)
    (parentNetdev : String) : (AllocVF env nw calls parentNetdev).nw.genNw = nw.genNw := by
  rcases AllocVF_cases env nw calls parentNetdev with ⟨-, h⟩ | ⟨p, x, -, -, -, h⟩ <;> rw [h]

/-- C8: when `CreateEndpoint` succeeds, the endpoint map holds a binding for the
endpoint id of the request; its `vfName` is the pool entry that `AllocVF` removed (the
last one), its `devName` is the resolved interface name, and `DeleteEndpoint` on that
binding gives back the pool as it was before `CreateEndpoint`: same entries, same
order. -/
theorem endpoint_round_trip (env : Env) (nw : sriovNetwork) (calls : List Call)
    (r : CreateEndpointRequest)
    (o : Out (Option CreateEndpointResponse × Option String))
    (h : CreateEndpoint env nw calls r = some o) (hok : o.ret.2 = none) :
    ∃ g0 g b, nw.genNw = some g0 ∧ o.nw.genNw = some g ∧
      g.ndevEndpoints.lookup r.EndpointID = some b ∧
      nw.vfDevList = o.nw.vfDevList ++ [b.vfName] ∧
      b.vfName = (AllocVF env nw calls g0.ndevName).ret.1 ∧
      b.devName = (AllocVF env nw calls g0.ndevName).ret.2 ∧ b.devName ≠ "" ∧
      (DeleteEndpoint o.nw b).vfDevList = nw.vfDevList := by
  unfold CreateEndpoint at h
  cases hg : nw.genNw with
  | none => simp [hg] at h
  | some g0 =>
    simp only [hg] at h
    by_cases hname : (AllocVF env nw calls g0.ndevName).ret.2 = ""
    · rw [if_pos hname] at h
      simp only [Option.some.injEq] at h
      subst h
      simp at hok
    · rw [if_neg hname] at h
      simp only [Option.some.injEq] at h
      subst h
      rcases AllocVF_cases env nw calls g0.ndevName with ⟨hret, -⟩ | ⟨p, x, hp, hx, -, hnw⟩
      · exact absurd (by rw [hret]) hname
      · refine ⟨g0, _, _, rfl, rfl, mapInsert_lookup _ _ _, ?_, rfl, rfl, hname, ?_⟩
        · simp only [hnw, hx, hp]
        · simp only [DeleteEndpoint, FreeVF, hnw, hx, hp]

theorem endpoint_round_trip_witness :
    ∃ g0 g b, nwA.genNw = some g0 ∧
      ((CreateEndpoint envOK nwA [] reqA).getD ⟨nwA, [], (none, none)⟩).nw.genNw = some g ∧
      g.ndevEndpoints.lookup reqA.EndpointID = some b ∧
      nwA.vfDevList =
        ((CreateEndpoint envOK nwA [] reqA).getD ⟨nwA, [], (none, none)⟩).nw.vfDevList
          ++ [b.vfName] ∧
      b.vfName = (AllocVF envOK nwA [] g0.ndevName).ret.1 ∧
      b.devName = (AllocVF envOK nwA [] g0.ndevName).ret.2 ∧ b.devName ≠ "" ∧
      (DeleteEndpoint ((CreateEndpoint envOK nwA [] reqA).getD ⟨nwA, [], (none, none)⟩).nw
        b).vfDevList = nwA.vfDevList :=
  endpoint_round_trip envOK nwA [] reqA
    ((CreateEndpoint envOK nwA [] reqA).getD ⟨nwA, [], (none, none)⟩) rfl rfl

/-- C9 as claimed fails: with a pool holding only `vf0`, when the name of `vf0` does not
resolve (at the first resolution on `envNoName`, at the second one, after the rebind, on
`envLostAfterRebind`), `AllocVF` returns the empty pair and the pool still holds `vf0`;
it is not the pool without its last entry. -/
theorem failed_resolution_keeps_candidate :
    firstName envNoName [] "ens1" "vf0" = "" ∧
    (AllocVF envNoName nwOne [] "ens1").ret = ("", "") ∧
    (AllocVF envNoName nwOne [] "ens1").nw.vfDevList = ["vf0"] ∧
    (AllocVF envNoName nwOne [] "ens1").nw.vfDevList ≠ nwOne.vfDevList.dropLast ∧
    firstName envLostAfterRebind [] "ens1" "vf0" ≠ "" ∧
    secondName envLostAfterRebind nwOne [] "ens1" "vf0" = "" ∧
    (AllocVF envLostAfterRebind nwOne [] "ens1").ret = ("", "") ∧
    (AllocVF envLostAfterRebind nwOne [] "ens1").nw.vfDevList = ["vf0"] ∧
    (AllocVF envLostAfterRebind nwOne [] "ens1").nw.vfDevList ≠ nwOne.vfDevList.dropLast := by
  decide

/-- C9 as the code has it: on a network with a non-empty pool `p ++ [x]`, when the first
resolution of `x` gives the empty name, or the first gives a name and the second, after
the rebind, gives the empty name, `AllocVF` returns the empty pair and the network is
unchanged: the pool is still `p ++ [x]`, the candidate has not been removed. -/
theorem failed_resolution_leaves_pool (env : Env) (nw : sriovNetwork) (calls : List Call)
    (parentNetdev : String) (p : List String) (x : String)
    (hpool : nw.vfDevList = p ++ [x])
    (hfail : firstName env calls parentNetdev x = "" ∨
      (firstName env calls parentNetdev x ≠ "" ∧ secondName env nw calls parentNetdev x = "")) :
    (AllocVF env nw calls parentNetdev).ret = ("", "") ∧
    (AllocVF env nw calls parentNetdev).nw = nw ∧
    (AllocVF env nw calls parentNetdev).nw.vfDevList = p ++ [x] := by
  rcases hfail with h1 | ⟨h1, h2⟩
  · rw [AllocVF_first_empty env nw calls parentNetdev p x hpool h1]
    exact ⟨rfl, rfl, hpool⟩
  · rw [AllocVF_second_empty env nw calls parentNetdev p x hpool h1 h2]
    exact ⟨rfl, rfl, hpool⟩

theorem failed_resolution_leaves_pool_witness :
    (AllocVF envLostAfterRebind nwOne [] "ens1").ret = ("", "") ∧
    (AllocVF envLostAfterRebind nwOne [] "ens1").nw = nwOne ∧
    (AllocVF envLostAfterRebind nwOne [] "ens1").nw.vfDevList = [] ++ ["vf0"] :=
  failed_resolution_leaves_pool envLostAfterRebind nwOne [] "ens1" [] "vf0" (by decide)
    (Or.inr ⟨by decide, by decide⟩)

/-! ## Conservation of VFs -/

/-- A successful `DiscoverVFs` on a network with `discoveredVFCount` 0 leaves `genNw`
set and the count equal to the length of the pool. -/
theorem DiscoverVFs_first_success {env : Env} {nw : sriovNetwork} {calls : List Call}
    {d : Out (Option String)} (h0 : nw.discoveredVFCount = 0)
    (h : DiscoverVFs env nw calls = some d) (hok : d.ret = none) :
    (∃ g, d.nw.genNw = some g) ∧
    d.nw.discoveredVFCount = (d.nw.vfDevList.length : Int) := by
  have henum : ∀ (nw1 : sriovNetwork) (c : List Call), nw1.discoveredVFCount = 0 →
      DiscoverVFs.enumerate env nw1 c = some d →
      (∃ g, d.nw.genNw = some g) ∧
      d.nw.discoveredVFCount = (d.nw.vfDevList.length : Int) := by
    intro nw1 c h1 he
    cases hg : nw1.genNw with
    | none => simp [DiscoverVFs.enumerate, h1, hg] at he
    | some g =>
      cases hl : env.vfDevList c g.ndevName with
      | mk names err =>
        cases err with
        | none =>
          rw [enumerate_ok env nw1 c g names h1 hg hl] at he
          simp only [Option.some.injEq] at he
          subst he
          exact ⟨⟨g, hg⟩, rfl⟩
        | some e =>
          rw [enumerate_fail env nw1 c g names e h1 hg hl] at he
          simp only [Option.some.injEq] at he
          subst he
          simp at hok
  by_cases hs : nw.state = SRIOV_DISABLED
  · cases hg : nw.genNw with
    | none => simp [DiscoverVFs, hs, hg] at h
    | some g =>
      cases he : env.netdevEnableSRIOV calls g.ndevName with
      | none =>
        rw [DiscoverVFs_disabled_ok env nw calls g hs hg he] at h
        exact henum { nw with state := SRIOV_ENABLED } _ h0 h
      | some e =>
        rw [DiscoverVFs_disabled_fail env nw calls g e hs hg he] at h
        simp only [Option.some.injEq] at h
        subst h
        simp at hok
  · rw [DiscoverVFs_enabled env nw calls hs] at h
    exact henum _ _ h0 h

/-- One endpoint call keeps `genNw` set and the conservation equation true, and does not
panic. -/
theorem EpOp_step_conserved (env : Env) (st : EpState) (op : EpOp)
    (hg : ∃ g, st.nw.genNw = some g) (hc : Conserved st) :
    ∃ st1, EpOp.step env st op = some st1 ∧ (∃ g, st1.nw.genNw = some g) ∧ Conserved st1 := by
  obtain ⟨g, hg⟩ := hg
  cases op with
  | create r =>
    simp only [EpOp.step, CreateEndpoint, hg]
    by_cases hname : (AllocVF env st.nw st.calls g.ndevName).ret.2 = ""
    · rw [if_pos hname]
      rcases AllocVF_cases env st.nw st.calls g.ndevName with ⟨-, hnw⟩ | ⟨p, x, -, -, hne, -⟩
      · refine ⟨_, rfl, ?_, ?_⟩
        · exact ⟨g, by simp only [hnw, hg]⟩
        · simpa only [Conserved, hnw] using hc
      · exact absurd hname hne
    · rw [if_neg hname]
      rcases AllocVF_cases env st.nw st.calls g.ndevName with ⟨hret, -⟩ | ⟨p, x, hp, -, -, hnw⟩
      · exact absurd (by rw [hret]) hname
      · refine ⟨_, rfl, ⟨_, rfl⟩, ?_⟩
        simp only [Conserved, recordedBinding, mapInsert_lookup, Option.toList, hnw,
          List.length_append, List.length_singleton] at hc ⊢
        rw [hp] at hc
        simp only [List.length_append, List.length_singleton] at hc
        rw [hc]
        push_cast
        ring
  | delete i =>
    simp only [EpOp.step]
    cases hb : st.bindings.get? i with
    | none => exact ⟨_, rfl, ⟨g, hg⟩, hc⟩
    | some b =>
      refine ⟨_, rfl, ⟨g, hg⟩, ?_⟩
      have hi : i < st.bindings.length := by
        rw [List.get?_eq_some] at hb
        exact hb.1
      simp only [Conserved, DeleteEndpoint, FreeVF, List.length_append, List.length_singleton,
        List.length_eraseIdx, hi, if_true] at hc ⊢
      rw [hc]
      have h1 : 1 ≤ st.bindings.length := by omega
      push_cast [Nat.cast_sub h1]
      ring

theorem EpOp_run_conserved (env : Env) (ops : List EpOp) :
    ∀ st : EpState, (∃ g, st.nw.genNw = some g) → Conserved st →
      ∃ st1, EpOp.run env st ops = some st1 ∧ Conserved st1 := by
  induction ops with
  | nil =>
    intro st _ hc
    exact ⟨st, rfl, hc⟩
  | cons op ops ih =>
    intro st hg hc
    obtain ⟨st1, hstep, hg1, hc1⟩ := EpOp_step_conserved env st op hg hc
    obtain ⟨st2, hrun, hc2⟩ := ih st1 hg1 hc1
    exact ⟨st2, by simp only [EpOp.run, hstep, Option.some_bind, hrun], hc2⟩

/-- C10: after a successful first discovery (a `DiscoverVFs` that starts with
`discoveredVFCount` 0 and returns no error), every sequence of `CreateEndpoint` calls
and of `DeleteEndpoint` calls, each on a binding made by a successful `CreateEndpoint`
and not deleted before, runs without panic and ends with
`discoveredVFCount = len(pool) + number of bindings not yet deleted`.  The sequence is
arbitrary, so the equation holds after every step, failed `CreateEndpoint` calls
included. -/
theorem vf_conservation (env : Env) (nw : sriovNetwork) (calls : List Call)
    (d : Out (Option String)) (ops : List EpOp)
    (h0 : nw.discoveredVFCount = 0)
    (hd : DiscoverVFs env nw calls = some d) (hok : d.ret = none) :
    ∃ st, EpOp.run env { nw := d.nw, calls := d.calls, bindings := [] } ops = some st ∧
      st.nw.discoveredVFCount =
        (st.nw.vfDevList.length : Int) + (st.bindings.length : Int) := by
  obtain ⟨hg, hc⟩ := DiscoverVFs_first_success h0 hd hok
  exact EpOp_run_conserved env ops { nw := d.nw, calls := d.calls, bindings := [] } hg
    (by simpa [Conserved] using hc)

theorem vf_conservation_witness :
    ∃ st, EpOp.run envOK
        { nw := ((DiscoverVFs envOK nwFresh []).getD ⟨nwFresh, [], none⟩).nw,
          calls := ((DiscoverVFs envOK nwFresh []).getD ⟨nwFresh, [], none⟩).calls,
          bindings := [] } demoEpOps = some st ∧
      st.nw.discoveredVFCount =
        (st.nw.vfDevList.length : Int) + (st.bindings.length : Int) :=
  vf_conservation envOK nwFresh [] ((DiscoverVFs envOK nwFresh []).getD ⟨nwFresh, [], none⟩)
    demoEpOps (by decide) rfl rfl

/-! ## Scenario C -/

/-- The result of `CreateEndpoint` when the pool is `p ++ [x]` and both resolutions of
`x` give a name. -/
theorem CreateEndpoint_success (env : Env) (nw : sriovNetwork) (calls : List Call)
    (r : CreateEndpointRequest) (g : genericNetwork) (p : List String) (x : String)
    (hg : nw.genNw = some g) (hp : nw.vfDevList = p ++ [x])
    (h1 : firstName env calls g.ndevName x ≠ "")
    (h2 : secondName env nw calls g.ndevName x ≠ "") :
    CreateEndpoint env nw calls r =
      some { nw := { nw with
                     vfDevList := p,
                     genNw := some { g with
                       ndevEndpoints := mapInsert g.ndevEndpoints r.EndpointID
                         { devName := secondName env nw calls g.ndevName x, vfName := x,
                           Address := r.Interface.Address } } },
             calls := callsAtSecondResolve env nw calls g.ndevName x
               ++ [Call.vfNetdevNameFromParent g.ndevName x],
             ret := (some { Interface :=
                       { Address := if r.Interface.Address = "" then r.Interface.Address
                                    else "",
                         AddressIPv6 := "", MacAddress := "" } }, none) } := by
  unfold CreateEndpoint
  simp only [hg, AllocVF_success env nw calls g.ndevName p x hp h1 h2, h2, if_false]

/-- The result of `CreateEndpoint` on an empty pool. -/
theorem exhaustion_free (env : Env) (nw : sriovNetwork) (calls : List Call)
    (r : CreateEndpointRequest) (g : genericNetwork) (h : nw.vfDevList = [])
    (hg : nw.genNw = some g) :
    CreateEndpoint env nw calls r =
      some { nw := nw, calls := calls,
             ret := (none, some ("All devices in use [ " ++ r.NetworkID ++ " ].")) } := by
  unfold CreateEndpoint
  simp only [hg, AllocVF_empty env nw calls g.ndevName h, if_true]

/-- One successful `CreateEndpoint` step of a sequence: the last pool entry goes to a new
binding. -/
theorem EpOp_step_create_success (env : Env) (st : EpState) (r : CreateEndpointRequest)
    (g : genericNetwork) (p : List String) (x : String)
    (hres : ∀ c d v, env.vfNetdevNameFromParent c d v ≠ "")
    (hg : st.nw.genNw = some g) (hp : st.nw.vfDevList = p ++ [x]) :
    ∃ st1 g1 b, EpOp.step env st (EpOp.create r) = some st1 ∧
      st1.nw.genNw = some g1 ∧ st1.nw.vfDevList = p ∧
      st1.bindings = st.bindings ++ [b] ∧ b.vfName = x := by
  have h1 : firstName env st.calls g.ndevName x ≠ "" := hres _ _ _
  have h2 : secondName env st.nw st.calls g.ndevName x ≠ "" := hres _ _ _
  have hstep : EpOp.step env st (EpOp.create r) =
      some { nw := { st.nw with
                     vfDevList := p,
                     genNw := some { g with
                       ndevEndpoints := mapInsert g.ndevEndpoints r.EndpointID
                         { devName := secondName env st.nw st.calls g.ndevName x, vfName := x,
                           Address := r.Interface.Address } } },
             calls := callsAtSecondResolve env st.nw st.calls g.ndevName x
               ++ [Call.vfNetdevNameFromParent g.ndevName x],
             bindings := st.bindings ++
               [{ devName := secondName env st.nw st.calls g.ndevName x, vfName := x,
                  Address := r.Interface.Address }] } := by
    simp only [EpOp.step, CreateEndpoint_success env st.nw st.calls r g p x hg hp h1 h2,
      recordedBinding, mapInsert_lookup, Option.toList]
  exact ⟨_, _, _, hstep, rfl, rfl, rfl, rfl⟩

/-- C11 as the code has it: on a network whose pool is the discovered list
`[v1, v2, v3, v4]` and on which every name resolution gives a name, four successive
`CreateEndpoint` calls succeed and take the names from the end of the list, `v4` first
and `v1` fourth; the pool is then empty and a fifth `CreateEndpoint` returns a nil
response with the error "All devices in use [ id ].". -/
theorem scenario_C_lifo (env : Env) (nw : sriovNetwork) (calls : List Call)
    (g : genericNetwork) (v1 v2 v3 v4 : String) (r1 r2 r3 r4 r5 : CreateEndpointRequest)
    (hg : nw.genNw = some g) (hpool : nw.vfDevList = [v1, v2, v3, v4])
    (hres : ∀ c d v, env.vfNetdevNameFromParent c d v ≠ "") :
    ∃ st, EpOp.run env { nw := nw, calls := calls, bindings := [] }
        [EpOp.create r1, EpOp.create r2, EpOp.create r3, EpOp.create r4] = some st ∧
      st.bindings.map ptEndpoint.vfName = [v4, v3, v2, v1] ∧
      st.nw.vfDevList = [] ∧
      ∃ o, CreateEndpoint env st.nw st.calls r5 = some o ∧
        o.ret = (none, some ("All devices in use [ " ++ r5.NetworkID ++ " ].")) ∧
        o.nw = st.nw := by
  obtain ⟨st1, g1, b1, hs1, hg1, hp1, hb1, hv1⟩ :=
    EpOp_step_create_success env { nw := nw, calls := calls, bindings := [] } r1 g
      [v1, v2, v3] v4 hres hg hpool
  obtain ⟨st2, g2, b2, hs2, hg2, hp2, hb2, hv2⟩ :=
    EpOp_step_create_success env st1 r2 g1 [v1, v2] v3 hres hg1 hp1
  obtain ⟨st3, g3, b3, hs3, hg3, hp3, hb3, hv3⟩ :=
    EpOp_step_create_success env st2 r3 g2 [v1] v2 hres hg2 hp2
  obtain ⟨st4, g4, b4, hs4, hg4, hp4, hb4, hv4⟩ :=
    EpOp_step_create_success env st3 r4 g3 [] v1 hres hg3 hp3
  refine ⟨st4, ?_, ?_, hp4, ?_⟩
  · simp only [EpOp.run, hs1, hs2, hs3, hs4, Option.some_bind]
  · rw [hb4, hb3, hb2, hb1]
    simp [hv1, hv2, hv3, hv4]
  · exact ⟨_, (exhaustion_free env st4.nw st4.calls r5 g4 hp4 hg4), rfl, rfl⟩

theorem scenario_C_lifo_witness :
    ∃ st, EpOp.run envOK { nw := nwA, calls := [], bindings := [] }
        [EpOp.create reqA, EpOp.create reqA, EpOp.create reqA, EpOp.create reqA] = some st ∧
      st.bindings.map ptEndpoint.vfName = ["vf3", "vf2", "vf1", "vf0"] ∧
      st.nw.vfDevList = [] ∧
      ∃ o, CreateEndpoint envOK st.nw st.calls reqA = some o ∧
        o.ret = (none, some ("All devices in use [ " ++ reqA.NetworkID ++ " ].")) ∧
        o.nw = st.nw :=
  scenario_C_lifo envOK nwA [] genA "vf0" "vf1" "vf2" "vf3" reqA reqA reqA reqA reqA
    (by decide) (by decide)
    (by
      intro c d v h
      have hlen := congrArg String.length h
      simp only [envOK, String.length_append] at hlen
      have h4 : "eth-".length = 4 := by decide
      have h0 : "".length = 0 := by decide
      omega)

/-- C11 as claimed fails: on the network of Scenario A (discovered order `vf0 .. vf3`,
every name resolving), after three successful `CreateEndpoint` calls the fourth
allocation returns `vf0`, the first discovered name, and not `vf3`, the last one. -/
theorem fourth_allocation_is_first_discovered :
    nwA.vfDevList = ["vf0", "vf1", "vf2", "vf3"] ∧
    ∃ st, EpOp.run envOK { nw := nwA, calls := [], bindings := [] } threeCreates = some st ∧
      st.bindings.length = 3 ∧
      (AllocVF envOK st.nw st.calls "ens1").ret.1 = "vf0" ∧
      (AllocVF envOK st.nw st.calls "ens1").ret.1 ≠ "vf3" :=
  ⟨by decide, _, rfl, by decide, by decide, by decide⟩

/-! ## Deleting a network -/

theorem mapDelete_lookup_self {β : Type} (m : List (String × β)) (k : String) :
    (mapDelete m k).lookup k = none := by
  induction m with
  | nil => rfl
  | cons e m ih =>
    unfold mapDelete at ih ⊢
    by_cases h : e.1 = k
    · simpa [List.filter, h] using ih
    · have hb : (k == e.1) = false := by
        simpa using fun hk : k = e.1 => h hk.symm
      simp only [List.filter, ne_eq, h, not_false_eq_true, decide_True]
      obtain ⟨a, b⟩ := e
      simp only [List.lookup, hb]
      exact ih

theorem mapDelete_lookup_ne {β : Type} (m : List (String × β)) (k k1 : String)
    (hne : k1 ≠ k) : (mapDelete m k).lookup k1 = m.lookup k1 := by
  induction m with
  | nil => rfl
  | cons e m ih =>
    unfold mapDelete at ih ⊢
    obtain ⟨a, b⟩ := e
    by_cases h : a = k
    · have hb : (k1 == a) = false := by
        simpa using fun hk : k1 = a => hne (hk.trans h)
      simp only [List.filter, ne_eq, h, not_true_eq_false, decide_False, List.lookup]
      rw [← h, hb] 
      simpa [h] using ih
    · simp only [List.filter, ne_eq, h, not_false_eq_true, decide_True, List.lookup]
      cases hk : k1 == a with
      | true => rfl
      | false => exact ih

theorem disableSRIOV_genNw {nw : sriovNetwork} {calls : List Call} {o : Out Unit}
    (h : disableSRIOV nw calls = some o) : o.nw.genNw = nw.genNw := by
  unfold disableSRIOV at h
  cases hg : nw.genNw with
  | none => simp [hg] at h
  | some g =>
    simp [hg] at h
    subst h
    rfl

/-- What `DiscoverVFs` leaves alone, and the state it returns without error. -/
theorem DiscoverVFs_fields {env : Env} {nw : sriovNetwork} {calls : List Call}
    {d : Out (Option String)} (h : DiscoverVFs env nw calls = some d) :
    d.nw.genNw = nw.genNw ∧ d.nw.maxVFCount = nw.maxVFCount ∧
    (d.ret = none →
      d.nw.state = if nw.state = SRIOV_DISABLED then SRIOV_ENABLED else nw.state) := by
  have henum : ∀ (nw1 : sriovNetwork) (c : List Call),
      DiscoverVFs.enumerate env nw1 c = some d →
      d.nw.genNw = nw1.genNw ∧ d.nw.maxVFCount = nw1.maxVFCount ∧
      (d.ret = none → d.nw.state = nw1.state) := by
    intro nw1 c he
    by_cases h0 : nw1.discoveredVFCount = 0
    · cases hg : nw1.genNw with
      | none => simp [DiscoverVFs.enumerate, h0, hg] at he
      | some g =>
        cases hl : env.vfDevList c g.ndevName with
        | mk names err =>
          cases err with
          | none =>
            rw [enumerate_ok env nw1 c g names h0 hg hl] at he
            simp only [Option.some.injEq] at he
            subst he
            exact ⟨hg.symm ▸ rfl, rfl, fun _ => rfl⟩
          | some e =>
            rw [enumerate_fail env nw1 c g names e h0 hg hl] at he
            simp only [Option.some.injEq] at he
            subst he
            exact ⟨hg.symm ▸ rfl, rfl, fun hc => absurd hc (by simp)⟩
    · rw [enumerate_skip env nw1 c h0] at he
      simp only [Option.some.injEq] at he
      subst he
      exact ⟨rfl, rfl, fun _ => rfl⟩
  by_cases hs : nw.state = SRIOV_DISABLED
  · cases hg : nw.genNw with
    | none => simp [DiscoverVFs, hs, hg] at h
    | some g =>
      cases he : env.netdevEnableSRIOV calls g.ndevName with
      | none =>
        rw [DiscoverVFs_disabled_ok env nw calls g hs hg he] at h
        obtain ⟨a, b, c⟩ := henum { nw with state := SRIOV_ENABLED } _ h
        exact ⟨by rw [a, hg], b, fun hr => by rw [c hr, if_pos hs]⟩
      | some e =>
        rw [DiscoverVFs_disabled_fail env nw calls g e hs hg he] at h
        simp only [Option.some.injEq] at h
        subst h
        exact ⟨hg.symm ▸ rfl, rfl, fun hc => absurd hc (by simp)⟩
  · rw [DiscoverVFs_enabled env nw calls hs] at h
    obtain ⟨a, b, c⟩ := henum nw calls h
    exact ⟨a, b, fun hr => by rw [c hr, if_neg hs]⟩

/-- When `CreateNetwork.prepare` reaches line 76, the validation has passed and both
capability queries have succeeded. -/
theorem prepare_ok_inv {env : Env} {s s2 : State} {nw : Nat} {genNw : genericNetwork}
    {options : List (String × String)} {gateway : String}
    (h : CreateNetwork.prepare env s nw genNw options gateway = Except.ok s2) :
    PassesValidation env s options gateway ∧
    (maxAnswer env s options gateway).2 = none ∧
    (curAnswer env s options gateway).2 = none := by
  obtain ⟨-, hO⟩ := prepare_frame env s nw genNw options gateway
  obtain ⟨-, -, -, -, -, hle, hck⟩ := hO _ h
  have hck1 : checkVlanNwExist s (parsedVlan env options) = false := by
    by_cases hz : parsedVlan env options = 0
    · rw [hz]
      exact checkVlanNwExist_zero s
    · exact hck hz
  have hle1 : ¬ (parsedVlan env options > 4095) := not_lt.mpr hle
  unfold CreateNetwork.prepare at h
  simp only [hle1, and_false, if_false, checkVlanNwExist_calls, hck1, Bool.false_eq_true]
    at h
  cases hgw : env.getNetworkByGateway s.calls gateway with
  | some e => simp [hgw] at h
  | none =>
    simp only [hgw] at h
    cases hmax : (env.netdevGetMaxVFCount (s.calls ++ [Call.getNetworkByGateway gateway])
        (mapIndex options env.networkDevice)).2 with
    | some e => simp [hmax] at h
    | none =>
      simp only [hmax] at h
      cases hcur : (curAnswer env s options gateway).2 with
      | some e =>
        unfold curAnswer at hcur
        simp [hcur] at h
      | none => exact ⟨⟨hgw, hle, hck1⟩, hmax, rfl⟩

/-- The shape of every successful `CreateNetwork`: the receiver has the passed
`genericNetwork`, is ENABLED and holds the parsed vlan, and is registered under `nid`. -/
theorem CreateNetwork_success_fields {env : Env} {s s1 : State} {nw : Nat}
    {genNw : genericNetwork} {nid : String} {options : List (String × String)}
    {gateway : String}
    (h : CreateNetwork env s nw genNw nid options gateway = some (s1, none)) :
    (s1.heap nw).genNw = some genNw ∧ (s1.heap nw).state = SRIOV_ENABLED ∧
    s1.networks = mapInsert s.networks nid nw ∧ s1.next = s.next ∧
    (∀ q, q ≠ nw → s1.heap q = s.heap q) := by
  obtain ⟨hheap, hnext, -, hok⟩ := CreateNetwork_frame h
  obtain ⟨hnet, -, -, -⟩ := hok rfl
  refine ⟨?_, ?_, hnet, hnext, hheap⟩
  all_goals
    unfold CreateNetwork at h
    split at h
    · simp at h
    · rename_i s2 hp
      obtain ⟨hval, hmax, hcur⟩ := prepare_ok_inv hp
      rw [prepare_ok env s nw genNw options gateway hval hmax hcur] at hp
      simp only [Except.ok.injEq] at hp
      subst hp
      simp only [Function.update_same] at h
      split at h
      · simp at h
      · rename_i d hd
        obtain ⟨hgen, -, hst⟩ := DiscoverVFs_fields hd
        cases hret : d.ret with
        | some e => simp [hret] at h
        | none =>
          simp only [hret, Option.some.injEq, Prod.mk.injEq, and_true] at h
          subst h
          simp only [Function.update_same, hgen, hst hret]
          try
            by_cases hc : (curAnswer env s options gateway).1 = 0
            · simp [hc]
            · simp [hc, SRIOV_ENABLED_ne_DISABLED]

/-- The result of `DeleteNetwork` on a network whose `genNw` is set. -/
theorem DeleteNetwork_eq (s : State) (nw : Nat) (g : genericNetwork)
    (hg : (s.heap nw).genNw = some g) :
    DeleteNetwork s nw =
      some { s with
             heap := Function.update s.heap nw
               { s.heap nw with state := SRIOV_DISABLED, vfDevList := [],
                                discoveredVFCount := 0 },
             networks := mapDelete s.networks g.id,
             calls := s.calls ++ [Call.netdevDisableSRIOV g.ndevName] } := by
  simp [DeleteNetwork, disableSRIOV, hg]

/-- C12 as claimed fails: a network created with `genX`, whose `id` is `netX`, and
registered under the id `netA` is still found under `netA` after `DeleteNetwork`, because
line 204 deletes the key `nw.genNw.id`. -/
theorem delete_keeps_entry_under_other_id :
    stateX.networks.lookup "netA" = some 0 ∧
    ∃ s2, DeleteNetwork stateX 0 = some s2 ∧
      (s2.heap 0).state = SRIOV_DISABLED ∧ s2.networks.lookup "netA" = some 0 :=
  ⟨by decide, _, rfl, by decide, by decide⟩

/-- C12 as the code has it: after a successful `CreateNetwork` under the id `nid`,
`DeleteNetwork` on that network does not panic, calls the disable primitive (whose result
it never reads), leaves the network DISABLED with an empty pool and `discoveredVFCount`
0, and removes the entry of `networks` whose key is the `id` of the network's
`genericNetwork`: a lookup of that id fails, and so does a lookup of `nid` when the two
ids are equal. -/
theorem delete_postcondition (env : Env) (s s1 : State) (nw : Nat)
    (genNw : genericNetwork) (nid : String) (options : List (String × String))
    (gateway : String)
    (h : CreateNetwork env s nw genNw nid options gateway = some (s1, none)) :
    s1.networks.lookup nid = some nw ∧
    ∃ s2, DeleteNetwork s1 nw = some s2 ∧
      (s2.heap nw).state = SRIOV_DISABLED ∧ (s2.heap nw).vfDevList = [] ∧
      (s2.heap nw).discoveredVFCount = 0 ∧
      s2.calls = s1.calls ++ [Call.netdevDisableSRIOV genNw.ndevName] ∧
      s2.networks.lookup genNw.id = none ∧
      (genNw.id = nid → s2.networks.lookup nid = none) := by
  obtain ⟨hgen, -, hnet, -, -⟩ := CreateNetwork_success_fields h
  refine ⟨by rw [hnet]; exact mapInsert_lookup _ _ _, ?_⟩
  rw [DeleteNetwork_eq s1 nw genNw hgen]
  refine ⟨_, rfl, ?_, ?_, ?_, rfl, mapDelete_lookup_self _ _, ?_⟩
  · simp only [Function.update_same]
  · simp only [Function.update_same]
  · simp only [Function.update_same]
  · intro hid
    rw [← hid]
    exact mapDelete_lookup_self _ _

theorem delete_postcondition_witness :
    stateA.networks.lookup "netA" = some 0 ∧
    ∃ s2, DeleteNetwork stateA 0 = some s2 ∧
      (s2.heap 0).state = SRIOV_DISABLED ∧ (s2.heap 0).vfDevList = [] ∧
      (s2.heap 0).discoveredVFCount = 0 ∧
      s2.calls = stateA.calls ++ [Call.netdevDisableSRIOV genA.ndevName] ∧
      s2.networks.lookup genA.id = none ∧
      (genA.id = "netA" → s2.networks.lookup "netA" = none) :=
  delete_postcondition envOK State.init.new.1 stateA 0 genA "netA"
    [("netdevice", "ens1"), ("vlan", "10")] "10.0.0.1" rfl

/-! ## The response of `CreateEndpoint` -/

/-- C13 as claimed fails: for the request `reqA`, whose address is "10.0.0.5/24",
`CreateEndpoint` succeeds on the network of Scenario A and the Address of the returned
descriptor is empty, not the address of the request. -/
theorem response_address_not_the_requested :
    reqA.Interface.Address = "10.0.0.5/24" ∧
    ∃ o, CreateEndpoint envOK nwA [] reqA = some o ∧ o.ret.2 = none ∧
      o.ret.1 = some { Interface := { Address := "", AddressIPv6 := "", MacAddress := "" } } :=
  ⟨by decide, _, rfl, by decide, by decide⟩

/-- C13 as the code has it: when `CreateEndpoint` succeeds, the Address of the returned
descriptor is empty for every request (line 184 copies the address only when the
request's address is empty, so the descriptor equals the requested address exactly in
that case), and the requested address is kept in the binding stored for the endpoint
id. -/
theorem response_address_empty (env : Env) (nw : sriovNetwork) (calls : List Call)
    (r : CreateEndpointRequest)
    (o : Out (Option CreateEndpointResponse × Option String))
    (h : CreateEndpoint env nw calls r = some o) (hok : o.ret.2 = none) :
    ∃ resp b, o.ret.1 = some resp ∧ resp.Interface.Address = "" ∧
      (resp.Interface.Address = r.Interface.Address ↔ r.Interface.Address = "") ∧
      recordedBinding o.nw r.EndpointID = some b ∧ b.Address = r.Interface.Address := by
  unfold CreateEndpoint at h
  cases hg : nw.genNw with
  | none => simp [hg] at h
  | some g0 =>
    simp only [hg] at h
    by_cases hname : (AllocVF env nw calls g0.ndevName).ret.2 = ""
    · rw [if_pos hname] at h
      simp only [Option.some.injEq] at h
      subst h
      simp at hok
    · rw [if_neg hname] at h
      simp only [Option.some.injEq] at h
      subst h
      refine ⟨_, { devName := (AllocVF env nw calls g0.ndevName).ret.2,
                   vfName := (AllocVF env nw calls g0.ndevName).ret.1,
                   Address := r.Interface.Address }, rfl, ?_, ?_, ?_, rfl⟩
      · by_cases ha : r.Interface.Address = ""
        · simp [ha]
        · simp [ha]
      · by_cases ha : r.Interface.Address = ""
        · simp [ha]
        · simp only [ha, if_false, iff_false]
          exact fun hc => ha hc.symm
      · simp only [recordedBinding, mapInsert_lookup]

theorem response_address_empty_witness :
    ∃ resp b,
      ((CreateEndpoint envOK nwA [] reqA).getD ⟨nwA, [], (none, none)⟩).ret.1 = some resp ∧
      resp.Interface.Address = "" ∧
      (resp.Interface.Address = reqA.Interface.Address ↔ reqA.Interface.Address = "") ∧
      recordedBinding ((CreateEndpoint envOK nwA [] reqA).getD ⟨nwA, [], (none, none)⟩).nw
        reqA.EndpointID = some b ∧
      b.Address = reqA.Interface.Address :=
  response_address_empty envOK nwA [] reqA
    ((CreateEndpoint envOK nwA [] reqA).getD ⟨nwA, [], (none, none)⟩) rfl rfl

/-! ## Failures of `CreateNetwork` after the validation -/

/-- C15: when the validation passes, both capability queries succeed, no VF is enabled
yet and the enable call fails with error `e`: `DiscoverVFs` (entered at line 76) and
`CreateNetwork` both return `e`; the network is DISABLED, its pool and
`discoveredVFCount` are what they were; the last external call is the enable call, so no
listing is attempted; `networks` and every object other than the receiver are
unchanged. -/
theorem enable_failure_leaves_disabled (env : Env) (s : State) (nw : Nat)
    (genNw : genericNetwork) (nid : String) (options : List (String × String))
    (gateway : String) (e : String)
    (hval : PassesValidation env s options gateway)
    (hmax : (maxAnswer env s options gateway).2 = none)
    (hcur : (curAnswer env s options gateway).2 = none)
    (hzero : (curAnswer env s options gateway).1 = 0)
    (hen : enableAnswer env s genNw options gateway = some e) :
    (∃ s2 d, CreateNetwork.prepare env s nw genNw options gateway = Except.ok s2 ∧
      DiscoverVFs env (s2.heap nw) s2.calls = some d ∧ d.ret = some e) ∧
    ∃ s1, CreateNetwork env s nw genNw nid options gateway = some (s1, some e) ∧
      (s1.heap nw).state = SRIOV_DISABLED ∧
      (s1.heap nw).vfDevList = (s.heap nw).vfDevList ∧
      (s1.heap nw).discoveredVFCount = (s.heap nw).discoveredVFCount ∧
      s1.calls = callsAtDiscover env s options gateway
        ++ [Call.netdevEnableSRIOV genNw.ndevName] ∧
      (∀ d, Call.vfDevList d ∉ s1.calls.drop s.calls.length) ∧
      s1.networks = s.networks ∧
      (∀ q, q ≠ nw → s1.heap q = s.heap q) := by
  have hd := DiscoverVFs_disabled_fail env
    { s.heap nw with
      genNw := some genNw,
      maxVFCount := (maxAnswer env s options gateway).1,
      state := if (curAnswer env s options gateway).1 ≠ 0 then SRIOV_ENABLED
               else SRIOV_DISABLED }
    (callsAtDiscover env s options gateway) genNw e (by simp [hzero]) rfl hen
  constructor
  · refine ⟨_, ?d, prepare_ok env s nw genNw options gateway hval hmax hcur, ?h1, ?h2⟩
    case h1 =>
      simp only [Function.update_same]
      exact hd
    case h2 => rfl
  · unfold CreateNetwork
    rw [prepare_ok env s nw genNw options gateway hval hmax hcur]
    simp only [Function.update_same, hd, Function.update_idem]
    refine ⟨_, rfl, ?_, ?_, ?_, rfl, ?_, rfl, ?_⟩
    · simp [Function.update_same, hzero]
    · simp only [Function.update_same]
    · simp only [Function.update_same]
    · intro d
      simp [callsAtDiscover, List.append_assoc]
    · intro q hq
      simp [Function.update, hq]

theorem enable_failure_leaves_disabled_witness :
    (∃ s2 d, CreateNetwork.prepare envEnableFails State.init.new.1 State.init.new.2 genA
        [("netdevice", "ens1"), ("vlan", "10")] "10.0.0.1" = Except.ok s2 ∧
      DiscoverVFs envEnableFails (s2.heap State.init.new.2) s2.calls = some d ∧
      d.ret = some "cannot enable SR-IOV") ∧
    ∃ s1, CreateNetwork envEnableFails State.init.new.1 State.init.new.2 genA "netA"
        [("netdevice", "ens1"), ("vlan", "10")] "10.0.0.1"
        = some (s1, some "cannot enable SR-IOV") ∧
      (s1.heap State.init.new.2).state = SRIOV_DISABLED ∧
      (s1.heap State.init.new.2).vfDevList
        = (State.init.new.1.heap State.init.new.2).vfDevList ∧
      (s1.heap State.init.new.2).discoveredVFCount
        = (State.init.new.1.heap State.init.new.2).discoveredVFCount ∧
      s1.calls = callsAtDiscover envEnableFails State.init.new.1
          [("netdevice", "ens1"), ("vlan", "10")] "10.0.0.1"
        ++ [Call.netdevEnableSRIOV genA.ndevName] ∧
      (∀ d, Call.vfDevList d ∉ s1.calls.drop State.init.new.1.calls.length) ∧
      s1.networks = State.init.new.1.networks ∧
      (∀ q, q ≠ State.init.new.2 → s1.heap q = State.init.new.1.heap q) :=
  enable_failure_leaves_disabled envEnableFails State.init.new.1 State.init.new.2 genA
    "netA" [("netdevice", "ens1"), ("vlan", "10")] "10.0.0.1" "cannot enable SR-IOV"
    (by decide) (by decide) (by decide) (by decide) (by decide)

/-- C16 as claimed fails: on a new network, whose `genNw` is nil and whose `maxVFCount`
is 0, a failing capacity query leaves `genNw` set to the passed `genericNetwork`, and a
failing query of the enabled VFs leaves in addition `maxVFCount` at the queried capacity
4; in both cases the error of the query is returned. -/
theorem query_failure_changes_receiver :
    (State.init.new.1.heap State.init.new.2).genNw = none ∧
    (State.init.new.1.heap State.init.new.2).maxVFCount = 0 ∧
    (∃ s1, CreateNetwork envMaxFails State.init.new.1 State.init.new.2 genA "netA"
        [("netdevice", "ens1"), ("vlan", "10")] "10.0.0.1"
        = some (s1, some "SR-IOV unsupported") ∧
      (s1.heap State.init.new.2).genNw = some genA) ∧
    (∃ s1, CreateNetwork envCurFails State.init.new.1 State.init.new.2 genA "netA"
        [("netdevice", "ens1"), ("vlan", "10")] "10.0.0.1"
        = some (s1, some "cannot read VF count") ∧
      (s1.heap State.init.new.2).genNw = some genA ∧
      (s1.heap State.init.new.2).maxVFCount = 4) :=
  ⟨by decide, by decide, ⟨_, rfl, by decide⟩, ⟨_, rfl, by decide, by decide⟩⟩

/-- C16 as the code has it: when the validation passes and the capacity query, or after
it the query of the enabled VFs, fails with error `e`, `CreateNetwork` returns `e`;
`networks` and every object other than the receiver are unchanged; the receiver keeps its
state, pool, `discoveredVFCount` and vlan, while its `genNw` is the passed
`genericNetwork` (line 60) and its `maxVFCount` is the number the capacity query returned
(line 62). -/
theorem query_failure_keeps_registry (env : Env) (s : State) (nw : Nat)
    (genNw : genericNetwork) (nid : String) (options : List (String × String))
    (gateway : String) (e : String)
    (hval : PassesValidation env s options gateway)
    (hfail : (maxAnswer env s options gateway).2 = some e ∨
      ((maxAnswer env s options gateway).2 = none ∧
        (curAnswer env s options gateway).2 = some e)) :
    ∃ s1, CreateNetwork env s nw genNw nid options gateway = some (s1, some e) ∧
      s1.networks = s.networks ∧
      (∀ q, q ≠ nw → s1.heap q = s.heap q) ∧
      (s1.heap nw).state = (s.heap nw).state ∧
      (s1.heap nw).vfDevList = (s.heap nw).vfDevList ∧
      (s1.heap nw).discoveredVFCount = (s.heap nw).discoveredVFCount ∧
      (s1.heap nw).vlan = (s.heap nw).vlan ∧
      (s1.heap nw).genNw = some genNw ∧
      (s1.heap nw).maxVFCount = (maxAnswer env s options gateway).1 ∧
      (∀ d, Call.netdevEnableSRIOV d ∉ s1.calls.drop s.calls.length) ∧
      (∀ d, Call.vfDevList d ∉ s1.calls.drop s.calls.length) := by
  obtain ⟨hgw, hle, hck⟩ := hval
  have hle1 : ¬ (parsedVlan env options > 4095) := not_lt.mpr hle
  unfold CreateNetwork CreateNetwork.prepare
  simp only [hgw, hle1, and_false, if_false, checkVlanNwExist_calls, hck, Bool.false_eq_true]
  rcases hfail with hmax | ⟨hmax, hcur⟩
  · unfold maxAnswer at hmax
    simp only [hmax]
    refine ⟨_, rfl, rfl, ?_, ?_, ?_, ?_, ?_, ?_, ?_, ?_, ?_⟩
    · intro q hq
      simp [Function.update, hq]
    all_goals simp [maxAnswer]
  · unfold maxAnswer at hmax
    have hcur1 : (env.netdevGetEnabledVFCount
        (s.calls ++ [Call.getNetworkByGateway gateway] ++
          [Call.netdevGetMaxVFCount (mapIndex options env.networkDevice)])
        (mapIndex options env.networkDevice)).2 = some e := by
      simpa [curAnswer] using hcur
    simp only [hmax, hcur1]
    refine ⟨_, rfl, rfl, ?_, ?_, ?_, ?_, ?_, ?_, ?_, ?_, ?_⟩
    · intro q hq
      simp [Function.update, hq]
    all_goals simp [maxAnswer]

theorem query_failure_keeps_registry_witness :
    ∃ s1, CreateNetwork envCurFails State.init.new.1 State.init.new.2 genA "netA"
        [("netdevice", "ens1"), ("vlan", "10")] "10.0.0.1"
        = some (s1, some "cannot read VF count") ∧
      s1.networks = State.init.new.1.networks ∧
      (∀ q, q ≠ State.init.new.2 → s1.heap q = State.init.new.1.heap q) ∧
      (s1.heap State.init.new.2).state = (State.init.new.1.heap State.init.new.2).state ∧
      (s1.heap State.init.new.2).vfDevList
        = (State.init.new.1.heap State.init.new.2).vfDevList ∧
      (s1.heap State.init.new.2).discoveredVFCount
        = (State.init.new.1.heap State.init.new.2).discoveredVFCount ∧
      (s1.heap State.init.new.2).vlan = (State.init.new.1.heap State.init.new.2).vlan ∧
      (s1.heap State.init.new.2).genNw = some genA ∧
      (s1.heap State.init.new.2).maxVFCount
        = (maxAnswer envCurFails State.init.new.1 [("netdevice", "ens1"), ("vlan", "10")]
            "10.0.0.1").1 ∧
      (∀ d, Call.netdevEnableSRIOV d ∉ s1.calls.drop State.init.new.1.calls.length) ∧
      (∀ d, Call.vfDevList d ∉ s1.calls.drop State.init.new.1.calls.length) :=
  query_failure_keeps_registry envCurFails State.init.new.1 State.init.new.2 genA "netA"
    [("netdevice", "ens1"), ("vlan", "10")] "10.0.0.1" "cannot read VF count"
    (by decide) (Or.inr ⟨by decide, by decide⟩)

/-! ## The conflict predicate -/

/-- C17: for every registry and every integer `v`, `checkVlanNwExist v` is true exactly
when `v` is not zero and some registered network has vlan `v`; `checkVlanNwExist 0` is
false for every registry, and a call without vlan option works with vlan 0, so a network
without vlan is never refused as a vlan conflict, however many are registered. -/
theorem checkVlanNwExist_is_conflict (env : Env) (s : State) (v : Int)
    (options : List (String × String)) :
    (checkVlanNwExist s v = true ↔ v ≠ 0 ∧ ∃ e ∈ s.networks, (s.heap e.2).vlan = v) ∧
    checkVlanNwExist s 0 = false ∧
    (mapIndex options env.sriovVlan = "" →
      parsedVlan env options = 0 ∧ checkVlanNwExist s (parsedVlan env options) = false) := by
  refine ⟨checkVlanNwExist_eq_true_iff s v, checkVlanNwExist_zero s, ?_⟩
  intro h
  have hz : parsedVlan env options = 0 := by simp [parsedVlan, h]
  exact ⟨hz, by rw [hz]; exact checkVlanNwExist_zero s⟩

/-! ## Repeating the discovery -/

/-- C19 as claimed fails.  On a network with `discoveredVFCount` 4 whose state is
DISABLED, `DiscoverVFs` calls the enable primitive, and then sets the state ENABLED or,
when enabling fails, returns the error.  And after a successful first call that found no
VF (`discoveredVFCount` stays 0) a second call lists the VFs again. -/
theorem discovery_not_always_skipped :
    nwDisabledDiscovered.discoveredVFCount = 4 ∧
    DiscoverVFs envOK nwDisabledDiscovered [] =
      some { nw := { nwDisabledDiscovered with state := SRIOV_ENABLED },
             calls := [Call.netdevEnableSRIOV "ens1"], ret := none } ∧
    DiscoverVFs envEnableFails nwDisabledDiscovered [] =
      some { nw := nwDisabledDiscovered, calls := [Call.netdevEnableSRIOV "ens1"],
             ret := some "cannot enable SR-IOV" } ∧
    DiscoverVFs envNoVFs nwFresh [] =
      some { nw := { nwFresh with state := SRIOV_ENABLED },
             calls := [Call.netdevEnableSRIOV "ens1", Call.vfDevList "ens1"], ret := none } ∧
    DiscoverVFs envNoVFs { nwFresh with state := SRIOV_ENABLED }
        [Call.netdevEnableSRIOV "ens1", Call.vfDevList "ens1"] =
      some { nw := { nwFresh with state := SRIOV_ENABLED },
             calls := [Call.netdevEnableSRIOV "ens1", Call.vfDevList "ens1",
               Call.vfDevList "ens1"],
             ret := none } :=
  ⟨by decide, rfl, rfl, rfl, rfl⟩

/-- C19 as the code has it: on a network with `discoveredVFCount` not 0 whose state is
not DISABLED, `DiscoverVFs` returns no error, makes no external call and changes no
field (the guard of line 110 covers the listing only; the enable call is governed by the
state).  Hence a second `DiscoverVFs` right after a successful first one that left
`discoveredVFCount` not 0 changes nothing. -/
theorem discovery_runs_once (env : Env) (nw : sriovNetwork) (calls : List Call)
    (hcount : nw.discoveredVFCount ≠ 0) :
    (nw.state ≠ SRIOV_DISABLED →
      DiscoverVFs env nw calls = some { nw := nw, calls := calls, ret := none }) ∧
    (∀ nw0 calls0,
      DiscoverVFs env nw0 calls0 = some { nw := nw, calls := calls, ret := none } →
      DiscoverVFs env nw calls = some { nw := nw, calls := calls, ret := none }) := by
  have hskip : nw.state ≠ SRIOV_DISABLED →
      DiscoverVFs env nw calls = some { nw := nw, calls := calls, ret := none } := by
    intro hs
    rw [DiscoverVFs_enabled env nw calls hs, enumerate_skip env nw calls hcount]
  refine ⟨hskip, ?_⟩
  intro nw0 calls0 h0
  apply hskip
  obtain ⟨-, -, hst⟩ := DiscoverVFs_fields h0
  have hs := hst rfl
  simp only at hs
  rw [hs]
  split
  · exact SRIOV_ENABLED_ne_DISABLED
  · rename_i hne
    exact hne

theorem discovery_runs_once_witness :
    DiscoverVFs envOK nwA stateA.calls
      = some { nw := nwA, calls := stateA.calls, ret := none } ∧
    DiscoverVFs envOK nwFresh [] = some discoveredOnce ∧
    DiscoverVFs envOK discoveredOnce.nw discoveredOnce.calls = some discoveredOnce :=
  ⟨(discovery_runs_once envOK nwA stateA.calls (by decide)).1 (by decide),
   rfl,
   (discovery_runs_once envOK discoveredOnce.nw discoveredOnce.calls (by decide)).2
     nwFresh [] rfl⟩

/-! ## The binding sequence -/

/-- C20 as claimed fails: on `envNoPci`, where no PCI name is found for the VF, `AllocVF`
on the network of Scenario A (vlan 10, every name resolving) succeeds and makes none of
the four calls: neither the MAC nor the vlan is set, nothing is unbound or bound. -/
theorem no_bind_sequence_without_pci_name :
    nwA.vlan = 10 ∧
    AllocVF envNoPci nwA [] "ens1" =
      { nw := { nwA with vfDevList := ["vf0", "vf1", "vf2"] },
        calls := [Call.vfNetdevNameFromParent "ens1" "vf3",
          Call.vfPCIDevNameFromVfDir "ens1" "vf3", Call.vfNetdevNameFromParent "ens1" "vf3"],
        ret := ("vf3", "eth-vf3") } :=
  ⟨by decide, rfl⟩

/-- C20 as the code has it: on a network with pool `p ++ [x]` and a vlan that is not
negative, when the first resolution of `x` gives a name and the PCI name of `x` is not
empty, the calls made after the PCI lookup are, in this order, set default MAC, set vlan
(with the network's vlan; made iff the vlan is not 0), unbind, bind, and the second
resolution; when the PCI name is empty none of the four is made.  None of the four calls
returns anything the code reads: the allocation succeeds iff the second resolution gives
a name. -/
theorem bind_sequence_order (env : Env) (nw : sriovNetwork) (calls : List Call)
    (parentNetdev : String) (p : List String) (x : String)
    (hpool : nw.vfDevList = p ++ [x]) (hvlan : 0 ≤ nw.vlan)
    (h1 : firstName env calls parentNetdev x ≠ "") :
    (env.vfPCIDevNameFromVfDir (calls ++ [Call.vfNetdevNameFromParent parentNetdev x])
        parentNetdev x ≠ "" →
      (AllocVF env nw calls parentNetdev).calls =
        calls ++ [Call.vfNetdevNameFromParent parentNetdev x,
            Call.vfPCIDevNameFromVfDir parentNetdev x]
          ++ [Call.SetVFDefaultMacAddress parentNetdev x (firstName env calls parentNetdev x)]
          ++ (if nw.vlan ≠ 0 then [Call.SetVFVlan parentNetdev x nw.vlan] else [])
          ++ [Call.unbindVF parentNetdev
                (env.vfPCIDevNameFromVfDir
                  (calls ++ [Call.vfNetdevNameFromParent parentNetdev x]) parentNetdev x),
              Call.bindVF parentNetdev
                (env.vfPCIDevNameFromVfDir
                  (calls ++ [Call.vfNetdevNameFromParent parentNetdev x]) parentNetdev x)]
          ++ [Call.vfNetdevNameFromParent parentNetdev x]) ∧
    (env.vfPCIDevNameFromVfDir (calls ++ [Call.vfNetdevNameFromParent parentNetdev x])
        parentNetdev x = "" →
      (AllocVF env nw calls parentNetdev).calls =
        calls ++ [Call.vfNetdevNameFromParent parentNetdev x,
            Call.vfPCIDevNameFromVfDir parentNetdev x]
          ++ [Call.vfNetdevNameFromParent parentNetdev x]) ∧
    ((AllocVF env nw calls parentNetdev).ret.2 ≠ "" ↔
      secondName env nw calls parentNetdev x ≠ "") := by
  have hcalls : (AllocVF env nw calls parentNetdev).calls =
      callsAtSecondResolve env nw calls parentNetdev x
        ++ [Call.vfNetdevNameFromParent parentNetdev x] := by
    by_cases h2 : secondName env nw calls parentNetdev x = ""
    · rw [AllocVF_second_empty env nw calls parentNetdev p x hpool h1 h2]
    · rw [AllocVF_success env nw calls parentNetdev p x hpool h1 h2]
  have hpos : (nw.vlan > 0) ↔ nw.vlan ≠ 0 := by omega
  refine ⟨?_, ?_, ?_⟩
  · intro hpci
    rw [hcalls]
    simp only [callsAtSecondResolve, bindSequence, hpci, ne_eq, not_false_eq_true, if_true,
      hpos, firstName, List.append_assoc, List.singleton_append, List.cons_append,
      List.nil_append]
  · intro hpci
    rw [hcalls]
    simp only [callsAtSecondResolve, bindSequence, hpci, ne_eq, not_true_eq_false, if_false,
      List.append_assoc, List.singleton_append, List.cons_append, List.nil_append,
      List.append_nil]
  · by_cases h2 : secondName env nw calls parentNetdev x = ""
    · rw [AllocVF_second_empty env nw calls parentNetdev p x hpool h1 h2]
      simp [h2]
    · rw [AllocVF_success env nw calls parentNetdev p x hpool h1 h2]

theorem bind_sequence_order_witness :
    (AllocVF envOK nwA [] "ens1").calls =
      [Call.vfNetdevNameFromParent "ens1" "vf3", Call.vfPCIDevNameFromVfDir "ens1" "vf3",
        Call.SetVFDefaultMacAddress "ens1" "vf3" "eth-vf3", Call.SetVFVlan "ens1" "vf3" 10,
        Call.unbindVF "ens1" "pci-vf3", Call.bindVF "ens1" "pci-vf3",
        Call.vfNetdevNameFromParent "ens1" "vf3"] ∧
    ((AllocVF envOK nwA [] "ens1").ret.2 ≠ "" ↔ secondName envOK nwA [] "ens1" "vf3" ≠ "") :=
  ⟨((bind_sequence_order envOK nwA [] "ens1" ["vf0", "vf1", "vf2"] "vf3" (by decide)
      (by decide) (by decide)).1 (by decide)).trans (by decide),
   (bind_sequence_order envOK nwA [] "ens1" ["vf0", "vf1", "vf2"] "vf3" (by decide)
      (by decide) (by decide)).2.2⟩

/-! ## Sequences of calls on several networks -/

theorem AllocVF_state (env : Env) (nw : sriovNetwork) (calls : List Call)
    (parentNetdev : String) : (AllocVF env nw calls parentNetdev).nw.state = nw.state := by
  rcases AllocVF_cases env nw calls parentNetdev with ⟨-, h⟩ | ⟨p, x, -, -, -, h⟩ <;> rw [h]

/-- What `CreateEndpoint` does to the receiver: nothing when it fails; when it succeeds
the last pool entry moves to the binding stored for the endpoint id, and only the
endpoint map of `genNw` changes besides the pool. -/
theorem CreateEndpoint_effect {env : Env} {nw : sriovNetwork} {calls : List Call}
    {r : CreateEndpointRequest} {o : Out (Option CreateEndpointResponse × Option String)}
    (h : CreateEndpoint env nw calls r = some o) :
    o.nw.state = nw.state ∧
    ∃ g, nw.genNw = some g ∧
      ((o.ret.2 ≠ none ∧ o.nw = nw) ∨
       (o.ret.2 = none ∧
        ∃ p b g1, nw.vfDevList = p ++ [b.vfName] ∧ o.nw.vfDevList = p ∧
          recordedBinding o.nw r.EndpointID = some b ∧
          o.nw.genNw = some g1 ∧ g1.ndevName = g.ndevName)) := by
  unfold CreateEndpoint at h
  cases hg : nw.genNw with
  | none => simp [hg] at h
  | some g =>
    simp only [hg] at h
    have hst := AllocVF_state env nw calls g.ndevName
    by_cases hname : (AllocVF env nw calls g.ndevName).ret.2 = ""
    · rw [if_pos hname] at h
      simp only [Option.some.injEq] at h
      subst h
      refine ⟨hst, g, rfl, Or.inl ⟨by simp, ?_⟩⟩
      rcases AllocVF_cases env nw calls g.ndevName with ⟨-, hnw⟩ | ⟨p, x, -, -, hne, -⟩
      · exact hnw
      · exact absurd hname hne
    · rw [if_neg hname] at h
      simp only [Option.some.injEq] at h
      subst h
      refine ⟨hst, g, rfl, Or.inr ⟨rfl, ?_⟩⟩
      rcases AllocVF_cases env nw calls g.ndevName with ⟨hret, -⟩ | ⟨p, x, hp, hx, -, hnw⟩
      · exact absurd (by rw [hret]) hname
      · refine ⟨p, { devName := (AllocVF env nw calls g.ndevName).ret.2,
                     vfName := (AllocVF env nw calls g.ndevName).ret.1,
                     Address := r.Interface.Address }, _, ?_, ?_, ?_, rfl, rfl⟩
        · simp only [hx, hp]
        · simp only [hnw]
        · simp only [recordedBinding, mapInsert_lookup]

/-- The shape of every `DeleteNetwork` that does not panic. -/
theorem DeleteNetwork_some {s s1 : State} {nw : Nat} (h : DeleteNetwork s nw = some s1) :
    ∃ g, (s.heap nw).genNw = some g ∧
      s1 = { s with
             heap := Function.update s.heap nw
               { s.heap nw with state := SRIOV_DISABLED, vfDevList := [],
                                discoveredVFCount := 0 },
             networks := mapDelete s.networks g.id,
             calls := s.calls ++ [Call.netdevDisableSRIOV g.ndevName] } := by
  cases hg : (s.heap nw).genNw with
  | none => simp [DeleteNetwork, disableSRIOV, hg] at h
  | some g =>
    rw [DeleteNetwork_eq s nw g hg] at h
    simp only [Option.some.injEq] at h
    exact ⟨g, rfl, h.symm⟩

theorem LiveEnabled_step {env : Env} {w w1 : ApiWorld} {op : ApiOp}
    (hinv : LiveEnabled w) (h : ApiOp.step env w op = some w1) : LiveEnabled w1 := by
  cases op with
  | createNetwork nw genNw nid options gateway =>
    simp only [ApiOp.step] at h
    cases hc : CreateNetwork env w.s nw genNw nid options gateway with
    | none => simp [hc] at h
    | some res =>
      obtain ⟨s1, err⟩ := res
      obtain ⟨hheap, -, -, -⟩ := CreateNetwork_frame hc
      cases err with
      | some e =>
        simp only [hc, Option.some.injEq] at h
        subst h
        intro p hp
        simp only [List.mem_filter, decide_eq_true_eq] at hp
        show (s1.heap p).state = SRIOV_ENABLED
        rw [hheap p hp.2]
        exact hinv p hp.1
      | none =>
        simp only [hc, Option.some.injEq] at h
        subst h
        obtain ⟨-, hst, -, -, -⟩ := CreateNetwork_success_fields hc
        intro p hp
        show (s1.heap p).state = SRIOV_ENABLED
        by_cases hpn : p = nw
        · rw [hpn]
          exact hst
        · rcases List.mem_cons.mp hp with hp | hp
          · exact absurd hp hpn
          · rw [hheap p hpn]
            exact hinv p hp
  | deleteNetwork nw =>
    simp only [ApiOp.step] at h
    cases hd : DeleteNetwork w.s nw with
    | none => simp [hd] at h
    | some s1 =>
      simp only [hd, Option.some.injEq] at h
      subst h
      obtain ⟨g, -, rfl⟩ := DeleteNetwork_some hd
      intro p hp
      simp only [List.mem_filter, decide_eq_true_eq] at hp
      simpa [Function.update, hp.2] using hinv p hp.1
  | createEndpoint nw r =>
    simp only [ApiOp.step] at h
    cases hc : CreateEndpoint env (w.s.heap nw) w.s.calls r with
    | none => simp [hc] at h
    | some o =>
      simp only [hc, Option.some.injEq] at h
      subst h
      obtain ⟨hst, -⟩ := CreateEndpoint_effect hc
      intro p hp
      have hs := hinv p hp
      by_cases hpn : p = nw
      · subst hpn
        simpa [Function.update_same, hst] using hs
      · simpa [Function.update, hpn] using hs
  | deleteEndpoint nw endpoint =>
    simp only [ApiOp.step, Option.some.injEq] at h
    subst h
    intro p hp
    have hs := hinv p hp
    by_cases hpn : p = nw
    · subst hpn
      simpa [Function.update_same, DeleteEndpoint, FreeVF] using hs
    · simpa [Function.update, hpn] using hs
  | freeVF nw name =>
    simp only [ApiOp.step, Option.some.injEq] at h
    subst h
    intro p hp
    have hs := hinv p hp
    by_cases hpn : p = nw
    · subst hpn
      simpa [Function.update_same, FreeVF] using hs
    · simpa [Function.update, hpn] using hs

theorem LiveEnabled_run {env : Env} (ops : List ApiOp) :
    ∀ {w w1 : ApiWorld}, LiveEnabled w → ApiOp.run env w ops = some w1 → LiveEnabled w1 := by
  induction ops with
  | nil =>
    intro w w1 hinv h
    simp only [ApiOp.run, Option.some.injEq] at h
    exact h ▸ hinv
  | cons op ops ih =>
    intro w w1 hinv h
    simp only [ApiOp.run] at h
    cases hstep : ApiOp.step env w op with
    | none => simp [hstep] at h
    | some w2 =>
      simp only [hstep, Option.some_bind] at h
      exact ih (LiveEnabled_step hinv hstep) h

/-- C14 as claimed fails, in two ways.  First: network `netA` is created, an endpoint is
created on it (its binding is `bindingA`), the network is deleted (state DISABLED, pool
empty) and the endpoint is deleted afterwards; `FreeVF` then changes the pool of the
DISABLED network from empty to `vf3`, and an `AllocVF` on the DISABLED network returns
`vf3`.  Second: network `netA` is created and `CreateNetwork` is called again on the
same object, with no VF reported enabled and the enable call failing; the call returns
the error and the network, still registered and never deleted, is DISABLED with its four
VFs in the pool, and `AllocVF` returns `vf3`. -/
theorem free_and_alloc_on_disabled_network :
    (∃ w, ApiOp.run envOK ApiWorld.init (opsFreeAfterDelete.take 2) = some w ∧
      recordedBinding (w.s.heap 0) reqA.EndpointID = some bindingA) ∧
    (∃ w, ApiOp.run envOK ApiWorld.init (opsFreeAfterDelete.take 3) = some w ∧
      (w.s.heap 0).state = SRIOV_DISABLED ∧ (w.s.heap 0).vfDevList = []) ∧
    (∃ w, ApiOp.run envOK ApiWorld.init opsFreeAfterDelete = some w ∧
      (w.s.heap 0).state = SRIOV_DISABLED ∧ (w.s.heap 0).vfDevList = ["vf3"] ∧
      (AllocVF envOK (w.s.heap 0) w.s.calls "ens1").ret = ("vf3", "eth-vf3")) ∧
    (∃ w, ApiOp.run envEnableOnce ApiWorld.init opsCreateTwice = some w ∧
      w.s.networks.lookup "netA" = some 0 ∧
      (w.s.heap 0).state = SRIOV_DISABLED ∧
      (w.s.heap 0).vfDevList = ["vf0", "vf1", "vf2", "vf3"] ∧
      (AllocVF envEnableOnce (w.s.heap 0) w.s.calls "ens1").ret = ("vf3", "eth-vf3")) :=
  ⟨⟨_, rfl, by decide⟩, ⟨_, rfl, by decide, by decide⟩,
   ⟨_, rfl, by decide, by decide, by decide⟩,
   ⟨_, rfl, by decide, by decide, by decide, by decide⟩⟩

/-- C14 as the code has it: in every memory reachable by `CreateNetwork`,
`DeleteNetwork`, `CreateEndpoint`, `DeleteEndpoint` and `FreeVF` calls, on any receivers
and with any arguments, every network whose latest `CreateNetwork` or `DeleteNetwork`
call was a `CreateNetwork` that returned no error is ENABLED, and neither `AllocVF` nor
`FreeVF` changes that; so on such a network every allocation and every free happens in
state ENABLED.  `AllocVF` and `FreeVF` do not read the state themselves. -/
theorem live_networks_enabled (env : Env) (ops : List ApiOp) (w : ApiWorld)
    (h : ApiOp.run env ApiWorld.init ops = some w) :
    ∀ p ∈ w.live,
      (w.s.heap p).state = SRIOV_ENABLED ∧
      (∀ parentNetdev,
        (AllocVF env (w.s.heap p) w.s.calls parentNetdev).nw.state = SRIOV_ENABLED) ∧
      (∀ name, (FreeVF (w.s.heap p) name).state = SRIOV_ENABLED) := by
  have hinit : LiveEnabled ApiWorld.init := by
    intro p hp
    simp [ApiWorld.init] at hp
  intro p hp
  have hs := LiveEnabled_run ops hinit h p hp
  exact ⟨hs, fun d => by rw [AllocVF_state, hs], fun _ => hs⟩

theorem live_networks_enabled_witness :
    0 ∈ worldLive.live ∧
    (worldLive.s.heap 0).state = SRIOV_ENABLED ∧
    (AllocVF envOK (worldLive.s.heap 0) worldLive.s.calls "ens1").nw.state = SRIOV_ENABLED ∧
    (FreeVF (worldLive.s.heap 0) "vf9").state = SRIOV_ENABLED :=
  ⟨by decide,
   (live_networks_enabled envOK (opsFreeAfterDelete.take 2) worldLive rfl 0 (by decide)).1,
   (live_networks_enabled envOK (opsFreeAfterDelete.take 2) worldLive rfl 0
     (by decide)).2.1 "ens1",
   (live_networks_enabled envOK (opsFreeAfterDelete.take 2) worldLive rfl 0
     (by decide)).2.2 "vf9"⟩

/-! ## Where the names in a pool come from -/

/-- The pool of the receiver is not touched by `CreateNetwork.prepare`, and `genNw` is
either left alone or set to the passed `genericNetwork`. -/
theorem prepare_pool (env : Env) (s : State) (nw : Nat) (genNw : genericNetwork)
    (options : List (String × String)) (gateway : String) :
    (∀ s1 e, CreateNetwork.prepare env s nw genNw options gateway = Except.error (s1, e) →
      (s1.heap nw).vfDevList = (s.heap nw).vfDevList ∧
      ((s1.heap nw).genNw = (s.heap nw).genNw ∨ (s1.heap nw).genNw = some genNw)) ∧
    (∀ s2, CreateNetwork.prepare env s nw genNw options gateway = Except.ok s2 →
      (s2.heap nw).vfDevList = (s.heap nw).vfDevList ∧
      (s2.heap nw).genNw = some genNw) := by
  constructor
  · intro s1 e h
    unfold CreateNetwork.prepare at h
    simp only at h
    split at h
    · simp only [Except.error.injEq, Prod.mk.injEq] at h
      obtain ⟨rfl, -⟩ := h
      exact ⟨rfl, Or.inl rfl⟩
    · split at h
      · simp only [Except.error.injEq, Prod.mk.injEq] at h
        obtain ⟨rfl, -⟩ := h
        exact ⟨rfl, Or.inl rfl⟩
      · split at h
        · simp only [Except.error.injEq, Prod.mk.injEq] at h
          obtain ⟨rfl, -⟩ := h
          exact ⟨rfl, Or.inl rfl⟩
        · split at h
          · simp only [Except.error.injEq, Prod.mk.injEq] at h
            obtain ⟨rfl, -⟩ := h
            simp
          · split at h
            · simp only [Except.error.injEq, Prod.mk.injEq] at h
              obtain ⟨rfl, -⟩ := h
              simp
            · simp at h
  · intro s2 h
    obtain ⟨hval, hmax, hcur⟩ := prepare_ok_inv h
    rw [prepare_ok env s nw genNw options gateway hval hmax hcur] at h
    simp only [Except.ok.injEq] at h
    subst h
    simp

/-- Every name in the pool after `DiscoverVFs` was in the pool before or has been listed
for the device of the network. -/
theorem DiscoverVFs_pool {env : Env} {nw : sriovNetwork} {calls : List Call}
    {d : Out (Option String)} (h : DiscoverVFs env nw calls = some d) :
    ∀ x ∈ d.nw.vfDevList,
      x ∈ nw.vfDevList ∨ ∃ g c, nw.genNw = some g ∧ x ∈ (env.vfDevList c g.ndevName).1 := by
  have henum : ∀ (nw1 : sriovNetwork) (c : List Call),
      DiscoverVFs.enumerate env nw1 c = some d →
      ∀ x ∈ d.nw.vfDevList,
        x ∈ nw1.vfDevList ∨
          ∃ g c1, nw1.genNw = some g ∧ x ∈ (env.vfDevList c1 g.ndevName).1 := by
    intro nw1 c he x hx
    by_cases h0 : nw1.discoveredVFCount = 0
    · cases hg : nw1.genNw with
      | none => simp [DiscoverVFs.enumerate, h0, hg] at he
      | some g =>
        cases hl : env.vfDevList c g.ndevName with
        | mk names err =>
          cases err with
          | none =>
            rw [enumerate_ok env nw1 c g names h0 hg hl] at he
            simp only [Option.some.injEq] at he
            subst he
            exact Or.inr ⟨g, c, rfl, by rw [hl]; exact hx⟩
          | some e =>
            rw [enumerate_fail env nw1 c g names e h0 hg hl] at he
            simp only [Option.some.injEq] at he
            subst he
            simp at hx
    · rw [enumerate_skip env nw1 c h0] at he
      simp only [Option.some.injEq] at he
      subst he
      exact Or.inl hx
  by_cases hs : nw.state = SRIOV_DISABLED
  · cases hg : nw.genNw with
    | none => simp [DiscoverVFs, hs, hg] at h
    | some g =>
      cases he : env.netdevEnableSRIOV calls g.ndevName with
      | none =>
        rw [DiscoverVFs_disabled_ok env nw calls g hs hg he] at h
        intro x hx
        rcases henum { nw with state := SRIOV_ENABLED } _ h x hx with h1 | ⟨g1, c1, hg1, h1⟩
        · exact Or.inl h1
        · exact Or.inr ⟨g1, c1, by rw [← hg]; exact hg1, h1⟩
      | some e =>
        rw [DiscoverVFs_disabled_fail env nw calls g e hs hg he] at h
        simp only [Option.some.injEq] at h
        subst h
        exact fun x hx => Or.inl hx
  · rw [DiscoverVFs_enabled env nw calls hs] at h
    exact henum nw calls h

/-- After `CreateNetwork` on a receiver with an empty pool, whatever it returns, every
name in the pool has been listed for the device of the passed `genericNetwork`, which is
then the `genNw` of the receiver. -/
theorem CreateNetwork_pool {env : Env} {s s1 : State} {nw : Nat} {genNw : genericNetwork}
    {nid : String} {options : List (String × String)} {gateway : String}
    {err : Option String}
    (h : CreateNetwork env s nw genNw nid options gateway = some (s1, err))
    (hpool : (s.heap nw).vfDevList = []) :
    ∀ x ∈ (s1.heap nw).vfDevList,
      (s1.heap nw).genNw = some genNw ∧ ∃ c, x ∈ (env.vfDevList c genNw.ndevName).1 := by
  obtain ⟨hE, hO⟩ := prepare_pool env s nw genNw options gateway
  unfold CreateNetwork at h
  split at h
  · rename_i sE e hp
    simp only [Option.some.injEq, Prod.mk.injEq] at h
    obtain ⟨rfl, -⟩ := h
    obtain ⟨hp1, -⟩ := hE _ _ hp
    intro x hx
    rw [hp1, hpool] at hx
    simp at hx
  · rename_i s2 hp
    obtain ⟨hp2, hg2⟩ := hO _ hp
    split at h
    · exact absurd h (by simp)
    · rename_i d hd
      obtain ⟨hgen, -, -⟩ := DiscoverVFs_fields hd
      have hfrom := DiscoverVFs_pool hd
      have hkey : ∀ x ∈ d.nw.vfDevList,
          d.nw.genNw = some genNw ∧ ∃ c, x ∈ (env.vfDevList c genNw.ndevName).1 := by
        intro x hx
        rcases hfrom x hx with h1 | ⟨g, c, hg, h1⟩
        · rw [hp2, hpool] at h1
          simp at h1
        · rw [hg2] at hg
          simp only [Option.some.injEq] at hg
          subst hg
          exact ⟨by rw [hgen, hg2], c, h1⟩
      cases hret : d.ret with
      | some e =>
        simp only [hret, Option.some.injEq, Prod.mk.injEq] at h
        obtain ⟨rfl, -⟩ := h
        simpa only [Function.update_same] using hkey
      | none =>
        simp only [hret, Option.some.injEq, Prod.mk.injEq] at h
        obtain ⟨rfl, -⟩ := h
        simpa only [Function.update_same, Function.update_idem] using hkey

theorem PoolsFromDevice_step {env : Env} {names : String → List String} {w w1 : World}
    {op : DrvOp} (hnames : ∀ c d, (env.vfDevList c d).1 = names d)
    (hinv : PoolsFromDevice names w)
    (h : DrvOp.step env w op = some w1) : PoolsFromDevice names w1 := by
  obtain ⟨hJ, hI⟩ := hinv
  cases op with
  | createNetwork genNw nid options gateway =>
    simp only [DrvOp.step] at h
    cases hc : CreateNetwork env w.s.new.1 w.s.new.2 genNw nid options gateway with
    | none => simp [hc] at h
    | some res =>
      obtain ⟨s1, err⟩ := res
      obtain ⟨hheap, hnext, -, -⟩ := CreateNetwork_frame hc
      have hpool := CreateNetwork_pool hc (by simp [State.new, sriovNetwork.zero])
      have hw1 : w1.s = s1 ∧ w1.bound = w.bound := by
        simp only [hc, Option.some.injEq] at h
        subst h
        exact ⟨rfl, rfl⟩
      obtain ⟨hs1, hb1⟩ := hw1
      have hother : ∀ p, p ≠ w.s.next → s1.heap p = w.s.heap p := by
        intro p hp
        rw [hheap p hp]
        simp [State.new, Function.update, hp]
      have hnobound : ∀ x, x ∉ (w.bound w.s.next).map ptEndpoint.vfName := by
        intro x hx
        obtain ⟨g, hg, -⟩ := hJ w.s.next x (Or.inr hx)
        rw [hI w.s.next (le_refl _)] at hg
        simp at hg
      constructor
      · intro p x hx
        rw [hs1, hb1] at hx
        rw [hs1]
        by_cases hp : p = w.s.next
        · subst hp
          rcases hx with hx | hx
          · obtain ⟨hg, c, hxc⟩ := hpool x hx
            exact ⟨genNw, hg, by rw [← hnames c]; exact hxc⟩
          · exact absurd hx (hnobound x)
        · rw [hother p hp] at hx ⊢
          exact hJ p x hx
      · intro p hp
        rw [hs1] at hp ⊢
        rw [hnext] at hp
        have hp1 : w.s.next + 1 ≤ p := by simpa [State.new] using hp
        rw [hother p (by omega)]
        exact hI p (by omega)
  | deleteNetwork nw =>
    simp only [DrvOp.step] at h
    cases hd : DeleteNetwork w.s nw with
    | none => simp [hd] at h
    | some s1 =>
      simp only [hd, Option.some.injEq] at h
      subst h
      obtain ⟨g, hg, rfl⟩ := DeleteNetwork_some hd
      constructor
      · intro p x hx
        by_cases hp : p = nw
        · subst hp
          simp only [Function.update_same] at hx ⊢
          rcases hx with hx | hx
          · simp at hx
          · exact hJ p x (Or.inr hx)
        · simp only [Function.update, hp, dite_false] at hx ⊢
          simpa [hp] using hJ p x hx
      · intro p hp
        by_cases hpn : p = nw
        · subst hpn
          have := hI p hp
          rw [hg] at this
          simp at this
        · simpa [Function.update, hpn] using hI p hp
  | createEndpoint nw r =>
    simp only [DrvOp.step] at h
    cases hc : CreateEndpoint env (w.s.heap nw) w.s.calls r with
    | none => simp [hc] at h
    | some o =>
      simp only [hc, Option.some.injEq] at h
      subst h
      obtain ⟨-, g, hg, hcase⟩ := CreateEndpoint_effect hc
      have hInw : ¬ w.s.next ≤ nw := by
        intro hle
        have := hI nw hle
        rw [hg] at this
        simp at this
      constructor
      · intro p x hx
        by_cases hp : p = nw
        · subst hp
          rcases hcase with ⟨hne, hsame⟩ | ⟨hnone, q, b, g1, hq, hq1, hrec, hg1, hdev⟩
          · cases hr : o.ret.2 with
            | none => exact absurd hr hne
            | some e =>
              simp only [hr, Function.update_same, hsame] at hx ⊢
              exact hJ p x hx
          · simp only [hnone, Function.update_same, hrec, Option.toList, List.map_append,
              List.map_cons, List.map_nil, List.mem_append, List.mem_singleton, hq1] at hx ⊢
            refine ⟨g1, hg1, ?_⟩
            rw [hdev]
            have hfrom : x ∈ (w.s.heap p).vfDevList ∨
                x ∈ (w.bound p).map ptEndpoint.vfName := by
              rcases hx with hx | hx | hx
              · exact Or.inl (by rw [hq]; exact List.mem_append_left _ hx)
              · exact Or.inr hx
              · exact Or.inl (by rw [hq, hx]; simp)
            obtain ⟨g0, hg0, hx0⟩ := hJ p x hfrom
            rw [hg] at hg0
            simp only [Option.some.injEq] at hg0
            subst hg0
            exact hx0
        · have hbound : (match o.ret.2 with
              | some _ => w.bound
              | none => Function.update w.bound nw
                  (w.bound nw ++ (recordedBinding o.nw r.EndpointID).toList)) p
              = w.bound p := by
            cases o.ret.2 with
            | none => simp [Function.update, hp]
            | some e => rfl
          simp only [Function.update, hp, dite_false, hbound] at hx ⊢
          simpa [hp] using hJ p x hx
      · intro p hp
        have hpn : p ≠ nw := fun hpn => hInw (hpn ▸ hp)
        simpa [Function.update, hpn] using hI p hp
  | deleteEndpoint nw i =>
    simp only [DrvOp.step] at h
    cases hb : (w.bound nw).get? i with
    | none =>
      simp only [hb, Option.some.injEq] at h
      subst h
      exact ⟨hJ, hI⟩
    | some b =>
      simp only [hb, Option.some.injEq] at h
      subst h
      have hbmem : b ∈ w.bound nw := List.get?_mem hb
      constructor
      · intro p x hx
        by_cases hp : p = nw
        · subst hp
          simp only [Function.update_same, DeleteEndpoint, FreeVF, List.mem_append,
            List.mem_singleton] at hx ⊢
          apply hJ p x
          rcases hx with (hx | hx) | hx
          · exact Or.inl hx
          · exact Or.inr (by rw [hx]; exact List.mem_map_of_mem _ hbmem)
          · refine Or.inr ?_
            obtain ⟨b1, hb1, rfl⟩ := List.mem_map.mp hx
            exact List.mem_map_of_mem _ (List.mem_of_mem_eraseIdx hb1)
        · simp only [Function.update, hp, dite_false] at hx ⊢
          simpa [hp] using hJ p x hx
      · intro p hp
        by_cases hpn : p = nw
        · subst hpn
          simpa [Function.update_same, DeleteEndpoint, FreeVF] using hI p hp
        · simpa [Function.update, hpn] using hI p hp

theorem PoolsFromDevice_run {env : Env} {names : String → List String}
    (hnames : ∀ c d, (env.vfDevList c d).1 = names d) (ops : List DrvOp) :
    ∀ {w w1 : World}, PoolsFromDevice names w →
      DrvOp.run env w ops = some w1 → PoolsFromDevice names w1 := by
  induction ops with
  | nil =>
    intro w w1 hinv h
    simp only [DrvOp.run, Option.some.injEq] at h
    exact h ▸ hinv
  | cons op ops ih =>
    intro w w1 hinv h
    simp only [DrvOp.run] at h
    cases hstep : DrvOp.step env w op with
    | none => simp [hstep] at h
    | some w2 =>
      simp only [hstep, Option.some_bind] at h
      exact ih (PoolsFromDevice_step hnames hinv hstep) h

/-- C18 as claimed fails, in three ways, all on `envPerDevice`, where the listing is a
function of the device name that returns distinct names and different devices share no
name.  First: two networks created on the same device `ens1`, each on a new object, are
both registered and both pools hold the same two names.  Second: `CreateNetwork` is
called again on the object of `netA`, now with a `genericNetwork` on `ens2`; the listing
is skipped, so the network, now on `ens2`, keeps the names of `ens1` in its pool and
shares them with a network created on `ens1` afterwards.  Third: the binding of an
endpoint of `netA` on `ens1` is handed to `DeleteEndpoint` of `netB` on `ens2` and then of
`netA`; its name `ens1-vf1` is then in both pools.  A last case is on `envStateful`, where
every device lists the same four distinct names: networks created on `ens1` and on `ens2`
then hold the same names. -/
theorem pools_overlap :
    (∀ c d, envPerDevice.vfDevList c d = (namesTable d, none)) ∧
    (namesTable "ens1").Nodup ∧ (namesTable "ens2").Nodup ∧
    (∃ w, DrvOp.run envPerDevice World.init opsSameDevice = some w ∧
      w.s.networks = [("netB", 1), ("netA", 0)] ∧
      (w.s.heap 0).vfDevList = ["ens1-vf0", "ens1-vf1"] ∧
      (w.s.heap 1).vfDevList = ["ens1-vf0", "ens1-vf1"] ∧
      "ens1-vf0" ∈ (w.s.heap 0).vfDevList ∧ "ens1-vf0" ∈ (w.s.heap 1).vfDevList) ∧
    (∃ w, ApiOp.run envPerDevice ApiWorld.init opsRecreateOnOtherDevice = some w ∧
      w.s.networks = [("netB", 1), ("netA", 0)] ∧
      (w.s.heap 0).genNw = some genA3 ∧ (w.s.heap 1).genNw = some genA2 ∧
      genA3.ndevName ≠ genA2.ndevName ∧
      (w.s.heap 0).vfDevList = ["ens1-vf0", "ens1-vf1"] ∧
      (w.s.heap 1).vfDevList = ["ens1-vf0", "ens1-vf1"]) ∧
    (∃ w, ApiOp.run envPerDevice ApiWorld.init (opsForeignBinding.take 3) = some w ∧
      recordedBinding (w.s.heap 0) reqA.EndpointID = some bindingP) ∧
    (∃ w, ApiOp.run envPerDevice ApiWorld.init opsForeignBinding = some w ∧
      w.s.networks = [("netB", 1), ("netA", 0)] ∧
      ((w.s.heap 0).genNw.map genericNetwork.ndevName) = some "ens1" ∧
      ((w.s.heap 1).genNw.map genericNetwork.ndevName) = some "ens2" ∧
      (w.s.heap 0).vfDevList = ["ens1-vf0", "ens1-vf1"] ∧
      (w.s.heap 1).vfDevList = ["ens2-vf0", "ens2-vf1", "ens1-vf1"]) ∧
    (∃ w, DrvOp.run envStateful World.init (opsTwoDevices.take 2) = some w ∧
      w.s.networks = [("netB", 1), ("netA", 0)] ∧
      (w.s.heap 0).genNw = some genA ∧ (w.s.heap 1).genNw = some genB ∧
      genA.ndevName ≠ genB.ndevName ∧
      (w.s.heap 0).vfDevList = ["vf0", "vf1", "vf2", "vf3"] ∧
      (w.s.heap 1).vfDevList = ["vf0", "vf1", "vf2", "vf3"]) :=
  ⟨fun _ _ => rfl, by decide, by decide,
   ⟨_, rfl, by decide, by decide, by decide, by decide, by decide⟩,
   ⟨_, rfl, by decide, by decide, by decide, by decide, by decide, by decide⟩,
   ⟨_, rfl, by decide⟩,
   ⟨_, rfl, by decide, by decide, by decide, by decide, by decide⟩,
   ⟨_, rfl, by decide, by decide, by decide, by decide, by decide, by decide⟩⟩

/-- C18 as the code has it: let the listing of the VF names be a function `names` of the
device name, and let different devices have no name in common.  Then in every memory
reachable by `CreateNetwork` calls, each on a new object, `DeleteNetwork` calls,
`CreateEndpoint` calls and `DeleteEndpoint` calls, each on a binding that a successful
`CreateEndpoint` on that network has made and that has not been deleted before, two
registered networks whose devices differ have no VF name in common in their pools.
Networks on the same device are not covered: each of them receives the whole list. -/
theorem pools_disjoint_across_devices (env : Env) (names : String → List String)
    (ops : List DrvOp) (w : World)
    (hnames : ∀ c d, (env.vfDevList c d).1 = names d)
    (hdisj : ∀ d1 d2, d1 ≠ d2 → ∀ x ∈ names d1, x ∉ names d2)
    (h : DrvOp.run env World.init ops = some w) :
    ∀ e1 ∈ w.s.networks, ∀ e2 ∈ w.s.networks, ∀ g1 g2,
      (w.s.heap e1.2).genNw = some g1 → (w.s.heap e2.2).genNw = some g2 →
      g1.ndevName ≠ g2.ndevName →
      ∀ x ∈ (w.s.heap e1.2).vfDevList, x ∉ (w.s.heap e2.2).vfDevList := by
  have hinit : PoolsFromDevice names World.init := by
    constructor
    · intro p x hx
      simp [World.init, State.init, sriovNetwork.zero] at hx
    · intro p _
      rfl
  obtain ⟨hJ, -⟩ := PoolsFromDevice_run hnames ops hinit h
  intro e1 _ e2 _ g1 g2 hg1 hg2 hne x hx1 hx2
  obtain ⟨g1a, hg1a, hn1⟩ := hJ e1.2 x (Or.inl hx1)
  obtain ⟨g2a, hg2a, hn2⟩ := hJ e2.2 x (Or.inl hx2)
  rw [hg1] at hg1a
  rw [hg2] at hg2a
  simp only [Option.some.injEq] at hg1a hg2a
  subst hg1a
  subst hg2a
  exact hdisj _ _ hne x hn1 hn2

/-- Different devices have no VF name in common in `namesTable`. -/
theorem namesTable_disjoint :
    ∀ d1 d2, d1 ≠ d2 → ∀ x ∈ namesTable d1, x ∉ namesTable d2 := by
  intro d1 d2 hne x h1 h2
  unfold namesTable at h1 h2
  split_ifs at h1 h2 with a1 a2 a3 a4 a5 a6
  · exact hne (a1.trans a2.symm)
  · simp only [List.mem_cons, List.mem_singleton, List.not_mem_nil, or_false] at h1 h2
    rcases h1 with rfl | rfl <;> rcases h2 with h2 | h2 <;> exact absurd h2 (by decide)
  · simp at h2
  · simp only [List.mem_cons, List.mem_singleton, List.not_mem_nil, or_false] at h1 h2
    rcases h1 with rfl | rfl <;> rcases h2 with h2 | h2 <;> exact absurd h2 (by decide)
  · exact hne (a4.trans a6.symm)
  all_goals
    first
    | exact absurd h2 (List.not_mem_nil _)
    | exact absurd h1 (List.not_mem_nil _)

theorem pools_disjoint_across_devices_witness :
    ("netA", 0) ∈ worldTwo.s.networks ∧ ("netB", 1) ∈ worldTwo.s.networks ∧
    (worldTwo.s.heap 0).vfDevList = ["ens1-vf0", "ens1-vf1"] ∧
    (worldTwo.s.heap 1).vfDevList = ["ens2-vf0"] ∧
    "ens1-vf0" ∉ (worldTwo.s.heap 1).vfDevList :=
  ⟨by decide, by decide, by decide, by decide,
   pools_disjoint_across_devices envPerDevice namesTable opsTwoDevices worldTwo
     (fun _ _ => rfl)
     namesTable_disjoint rfl
     ("netA", 0) (by decide) ("netB", 1) (by decide)
     ((worldTwo.s.heap 0).genNw.getD genA) ((worldTwo.s.heap 1).genNw.getD genB)
     (by decide) (by decide) (by decide) "ens1-vf0" (by decide)⟩

end Driver
